import Mathlib

/-! easy-event: a typed facade over a string-keyed dispatch bus

A shallow embedding of `src/easy-event.hpp` (namespace `nytelyte::easy_event`).

* The template parameters of `EventBuilder` / `EventImpl` (the Event Identity) become a
  structure of type codes; the alias templates `id`, `takes`, `returns` become functions on it.
* The `requires` clauses of the member functions become Boolean functions of the Identity
  and of the handler type.
* The bodies of the member functions become state-passing functions over a `World`
  (memory holding Out-Slots plus the state owned by user handlers).
-/

namespace easy_event

/-! ## Types -/

/-- Codes for the C++ types that occur as event parameters and event return types. -/
inductive CppType where
  | void
  | int
  | bool
  | string
  | nullptr_t
  | listenerResult
  | ptr (pointee : CppType)
  | pair (first second : CppType)
  deriving DecidableEq, Repr

/-- The two dispositions of `geode::ListenerResult`. -/
inductive ListenerResult where
  | Propagate
  | Stop
  deriving DecidableEq, Repr

/-- The trait `std::is_void_v`. -/
def is_void_v : CppType → Bool
  | CppType.void => true
  | _ => false

/-! ## Event Identity and its builder (`EventBuilder`) -/

/-- The template `EventBuilder<EventID, EventParameters, EventReturn>`.
`EventID` is `void` (here `none`) or `std::integral_constant<const char*, Id.value>` for a
string literal `Id` (here `some Id`); `EventParameters` is the pack inside `std::tuple<...>`;
`EventReturn` is a type, `void` when the event carries no result. -/
structure EventBuilder where
  EventID : Option String
  EventParameters : List CppType
  EventReturn : CppType
  deriving DecidableEq, Repr

/-- The alias `EasyEvent = internal::EventBuilder<>`, built from the default template
arguments `EventID = void`, `EventParameters = std::tuple<>`, `EventReturn = void`. -/
def EasyEvent : EventBuilder :=
  { EventID := none, EventParameters := [], EventReturn := CppType.void }

namespace EventBuilder

/-- The constant `EventImpl::ID`: `nullptr` (here `none`) when `EventID` is `void`, else
`EventID::value`. -/
def ID (I : EventBuilder) : Option String :=
  match I.EventID with
  | none => none
  | some value => some value

/-- The alias `EventImpl::Returns`. -/
def Returns (I : EventBuilder) : CppType := I.EventReturn

/-- The alias `EventImpl::Takes`, a `std::tuple` given by its element types. -/
def Takes (I : EventBuilder) : List CppType := I.EventParameters

/-- The private helper `makeIdType<Id...>()`: the pack `Id` of string literals has size 0,
size 1, or more; in the last case the `static_assert` fails and there is no result. -/
def makeIdType (I : EventBuilder) (Id : List String) : Option EventBuilder :=
  match Id with
  | [] =>
    some { EventID := none, EventParameters := I.EventParameters, EventReturn := I.EventReturn }
  | [value] =>
    some { EventID := some value, EventParameters := I.EventParameters, EventReturn := I.EventReturn }
  | _ :: _ :: _ => none

/-- The alias template `id<Id...>`, which is the type `makeIdType<Id...>()` points to. -/
def id (I : EventBuilder) (Id : List String) : Option EventBuilder :=
  I.makeIdType Id

/-- The alias template `takes<Parameters...>`. -/
def takes (I : EventBuilder) (Parameters : List CppType) : EventBuilder :=
  { EventID := I.EventID, EventParameters := Parameters, EventReturn := I.EventReturn }

/-- The alias template `returns<Return = void>`: `none` stands for the omitted template
argument (`returns<>`), which takes the default `void`. -/
def returns (I : EventBuilder) (Return : Option CppType) : EventBuilder :=
  { EventID := I.EventID, EventParameters := I.EventParameters,
    EventReturn := Return.getD CppType.void }

/-- The private alias `EventImpl::EventReturnPointer`. -/
def EventReturnPointer (I : EventBuilder) : CppType :=
  if is_void_v I.EventReturn then CppType.nullptr_t else CppType.ptr I.EventReturn

end EventBuilder

/-! ## Signature validators -/

/-- The facts of the C++ type system the validators consult, for handler types `Function`:
`std::invocable<F, P...>`, `std::invoke_result_t<F, P...>` and
`std::assignable_from<L&, R>` (given as `assignable_from L R`). -/
structure StdConcepts (Function : Type) where
  invocable : Function → List CppType → Bool
  invoke_result_t : Function → List CppType → CppType
  assignable_from : CppType → CppType → Bool

/-- The concept `FunctionHasValidArguments`. -/
def FunctionHasValidArguments {Function : Type} (std : StdConcepts Function)
    (F : Function) (EventParameters : List CppType) : Bool :=
  std.invocable F EventParameters

/-- The concept `FunctionHasValidReturnType`. -/
def FunctionHasValidReturnType {Function : Type} (std : StdConcepts Function)
    (F : Function) (ReturnType : CppType) (EventParameters : List CppType) : Bool :=
  (is_void_v ReturnType && is_void_v (std.invoke_result_t F EventParameters)) ||
    std.assignable_from ReturnType (std.invoke_result_t F EventParameters)

/-- The concept `IsValidFunction`. -/
def IsValidFunction {Function : Type} (std : StdConcepts Function)
    (F : Function) (ReturnType : CppType) (EventParameters : List CppType) : Bool :=
  FunctionHasValidArguments std F EventParameters &&
    FunctionHasValidReturnType std F ReturnType EventParameters

/-- The concept `MemberFunctionHasValidReturnType`. The handler type is
`MemberFunction<Class, ReturnType, EventParameters...>`, that is
`ReturnType (Class::*)(EventParameters...)`, whose result on `Class*, EventParameters...`
is `ReturnType` itself. -/
def MemberFunctionHasValidReturnType {Function : Type} (std : StdConcepts Function)
    (ReturnType : CppType) : Bool :=
  (is_void_v ReturnType && is_void_v ReturnType) || std.assignable_from ReturnType ReturnType

/-- The concept `IsValidMemberFunction`. -/
def IsValidMemberFunction {Function : Type} (std : StdConcepts Function)
    (ReturnType : CppType) : Bool :=
  MemberFunctionHasValidReturnType std ReturnType

/-! ## The operation surface and its `requires` clauses -/

/-- The posting operations. -/
inductive PostOp where
  | post
  | rawPost
  | receive
  | receiveBoth
  deriving DecidableEq, Repr

/-- The three listener shapes: `listen`, `rawListen`, `send`. -/
inductive Shape where
  | listen
  | rawListen
  | send
  deriving DecidableEq, Repr

/-- Free function (`Function&& function`) or the `On` forms
(`Class* instance, MemberFunction<...> function`). -/
inductive Binding where
  | function
  | on
  deriving DecidableEq, Repr

/-- Scoped forms return `Listener`, `global` forms return `new Listener`. -/
inductive Scope where
  | scoped
  | global
  deriving DecidableEq, Repr

/-- The `WithID` forms take `const char* id`; the preset forms use `EventImpl::ID`. -/
inductive KeySource where
  | withID
  | preset
  deriving DecidableEq, Repr

/-- The overload with the template parameter `geode::ListenerResult result` (fixed
disposition) or the one without it (the handler decides). -/
inductive Policy where
  | templated
  | untemplated
  deriving DecidableEq, Repr

/-- One of the 48 listener overloads of `EventImpl`, named by its five axes. -/
structure ListenerOp where
  shape : Shape
  binding : Binding
  scope : Scope
  key : KeySource
  policy : Policy
  deriving DecidableEq, Repr

/-- The `requires` clause of the posting operations (`postWithID` and `rawPostWithID` have
none). -/
def postRequires (I : EventBuilder) : PostOp → KeySource → Bool
  | PostOp.post, KeySource.withID => true
  | PostOp.rawPost, KeySource.withID => true
  | PostOp.receive, KeySource.withID => !is_void_v I.EventReturn
  | PostOp.receiveBoth, KeySource.withID => !is_void_v I.EventReturn
  | PostOp.post, KeySource.preset => !I.EventID.isNone
  | PostOp.rawPost, KeySource.preset => !I.EventID.isNone
  | PostOp.receive, KeySource.preset => !I.EventID.isNone && !is_void_v I.EventReturn
  | PostOp.receiveBoth, KeySource.preset => !I.EventID.isNone && !is_void_v I.EventReturn

/-- The macro argument `BaseReturnType`: `ReturnTypeTemplated` or `ReturnTypeUntemplated`
of the shape. -/
def BaseReturnType (I : EventBuilder) : Shape → Policy → CppType
  | Shape.listen, Policy.templated => CppType.void
  | Shape.listen, Policy.untemplated => CppType.listenerResult
  | Shape.rawListen, Policy.templated => CppType.void
  | Shape.rawListen, Policy.untemplated => CppType.listenerResult
  | Shape.send, Policy.templated => I.EventReturn
  | Shape.send, Policy.untemplated => CppType.pair CppType.listenerResult I.EventReturn

/-- The macro argument `BaseParameters`: `(EventParameters...)` or
`(EventReturnPointer, EventParameters...)`. -/
def BaseParameters (I : EventBuilder) : Shape → List CppType
  | Shape.listen => I.EventParameters
  | Shape.rawListen => I.EventReturnPointer :: I.EventParameters
  | Shape.send => I.EventParameters

/-- The macro argument `ExtraRequiresClause`, by shape and key source (the hand-written
`sendWithID` / `sendWithIDOn` carry the same clause as their global forms). -/
def ExtraRequiresClause (I : EventBuilder) : Shape → KeySource → Bool
  | Shape.listen, KeySource.withID => true
  | Shape.rawListen, KeySource.withID => true
  | Shape.send, KeySource.withID => !is_void_v I.EventReturn
  | Shape.listen, KeySource.preset => !I.EventID.isNone
  | Shape.rawListen, KeySource.preset => !I.EventID.isNone
  | Shape.send, KeySource.preset => !I.EventID.isNone && !is_void_v I.EventReturn

/-- The first conjunct of the `requires` clause of a listener overload, on the handler:
`IsValidFunction<Function, BaseReturnType, BaseParameters>` for a handler type `F`, or
`IsValidMemberFunction<Class, BaseReturnType, BaseParameters>` for the `On` forms (where the
handler type is fixed by the signature, and `F` plays no part). -/
def handlerRequires {Function : Type} (std : StdConcepts Function) (I : EventBuilder)
    (op : ListenerOp) (F : Function) : Bool :=
  match op.binding with
  | Binding.function =>
    IsValidFunction std F (BaseReturnType I op.shape op.policy) (BaseParameters I op.shape)
  | Binding.on => IsValidMemberFunction std (BaseReturnType I op.shape op.policy)

/-- The whole `requires` clause of a listener overload for a handler type `F`. -/
def listenerRequires {Function : Type} (std : StdConcepts Function) (I : EventBuilder)
    (op : ListenerOp) (F : Function) : Bool :=
  handlerRequires std I op F && ExtraRequiresClause I op.shape op.key

/-! ## Values, memory and the world handlers run in -/

/-- An address of a storage location. -/
abbrev Addr := Nat

/-- A pointer value such as `EventReturn*`: `none` is `nullptr`. -/
abbrev Ptr := Option Addr

/-- The values of a C++ type. -/
def CppType.denote : CppType → Type
  | CppType.void => Unit
  | CppType.int => Int
  | CppType.bool => Bool
  | CppType.string => String
  | CppType.nullptr_t => Unit
  | CppType.listenerResult => ListenerResult
  | CppType.ptr _ => Ptr
  | CppType.pair first second => first.denote × second.denote

/-- Value-initialisation `T()`. -/
def CppType.value_init : (t : CppType) → t.denote
  | CppType.void => ()
  | CppType.int => (0 : Int)
  | CppType.bool => false
  | CppType.string => ""
  | CppType.nullptr_t => ()
  | CppType.listenerResult => ListenerResult.Propagate
  | CppType.ptr _ => (none : Ptr)
  | CppType.pair first second => (first.value_init, second.value_init)

/-- The content of a local declared as `T x;` (default-initialisation): `none` is an
indeterminate value, as scalars have; `std::string` and `std::pair` run their default
constructor. -/
def CppType.default_init : (t : CppType) → Option t.denote
  | CppType.void => some ()
  | CppType.int => none
  | CppType.bool => none
  | CppType.string => some ""
  | CppType.nullptr_t => some ()
  | CppType.listenerResult => none
  | CppType.ptr _ => none
  | CppType.pair first second => some (first.value_init, second.value_init)

/-- The values of a parameter pack `EventParameters... args`. -/
def Args : List CppType → Type
  | [] => Unit
  | [t] => t.denote
  | t :: u :: ts => t.denote × Args (u :: ts)

/-- The state a post runs in: the memory that holds Out-Slots of value type `R` (`none` is
an indeterminate or absent content), the next unused address, the addresses assigned
through an Out-Slot pointer (latest first), and the state `user` owned by the handlers. -/
structure World (R σ : Type) where
  mem : Addr → Option R
  next : Addr
  stores : List Addr
  user : σ

namespace World

/-- Reading `*p`. -/
def load {R σ : Type} (w : World R σ) (p : Addr) : Option R := w.mem p

/-- The assignment `*p = v`. -/
def store {R σ : Type} (w : World R σ) (p : Addr) (v : R) : World R σ :=
  { w with mem := Function.update w.mem p (some v), stores := p :: w.stores }

/-- A new local with content `init` at a fresh address. -/
def alloc {R σ : Type} (w : World R σ) (init : Option R) : Addr × World R σ :=
  (w.next, { w with mem := Function.update w.mem w.next init, next := w.next + 1 })

end World

/-- The values of `EventParameters... args` of an Identity. -/
abbrev EventBuilder.Parameters (I : EventBuilder) : Type := Args I.EventParameters

/-- The values of `EventReturn` of an Identity. -/
abbrev EventBuilder.Value (I : EventBuilder) : Type := I.EventReturn.denote

/-- The world the operations of an Identity run in. -/
abbrev EventBuilder.World (I : EventBuilder) (σ : Type) : Type :=
  easy_event.World I.EventReturn.denote σ

/-! ## The external bus -/

/-- Modelled from the spec: the callback a listener hands to the external bus
(`geode::EventListener<Filter>`, not part of this repository). Its parameters are the wire
shape of the Filter: `DispatchFilter<EventParameters...>` (`plain`) or
`DispatchFilter<EventReturn*, EventParameters...>` (`withSlot`); it returns a disposition. -/
inductive Callback (A W : Type) where
  | plain (fn : A → W → ListenerResult × W)
  | withSlot (fn : Ptr → A → W → ListenerResult × W)

/-- Modelled from the spec: a subscription `subscribe(key, handler)` on the external bus,
built in the source as `Listener(callback, Filter(id))`. -/
structure Listener (A W : Type) where
  callback : Callback A W
  filter : String

/-- Modelled from the spec: an event submitted to the external bus, `Event(id, args...)`
(`plain`) or `Event(id, into, args...)` (`withSlot`), `Event` being `Filter::Event`. -/
inductive Event (A : Type) where
  | plain (id : String) (args : A)
  | withSlot (id : String) (into : Ptr) (args : A)

/-- The key string of an event. -/
def Event.id {A : Type} : Event A → String
  | Event.plain id _ => id
  | Event.withSlot id _ _ => id

/-- Modelled from the spec: one listener meets one event. The callback runs when the key of
the event equals the key of the filter and the event has the wire shape of the filter;
otherwise the listener lets the event pass. -/
def Listener.handle {A W : Type} (l : Listener A W) (ev : Event A) (w : W) :
    ListenerResult × W :=
  match l.callback, ev with
  | Callback.plain fn, Event.plain id args =>
    if id = l.filter then fn args w else (ListenerResult.Propagate, w)
  | Callback.withSlot fn, Event.withSlot id into args =>
    if id = l.filter then fn into args w else (ListenerResult.Propagate, w)
  | _, _ => (ListenerResult.Propagate, w)

/-- Modelled from the spec: `post` of the external bus (section 6). The registered
listeners meet the event in sequence until one returns `Stop`; the result is the
disposition that ended the sequence, `Propagate` when no listener stopped it. -/
def Event.post {A W : Type} (ev : Event A) (bus : List (Listener A W)) (w : W) :
    ListenerResult × W :=
  match bus with
  | [] => (ListenerResult.Propagate, w)
  | l :: rest =>
    match l.handle ev w with
    | (ListenerResult.Stop, w1) => (ListenerResult.Stop, w1)
    | (ListenerResult.Propagate, w1) => ev.post rest w1

/-- Modelled from the spec: the bus invokes the callback of a listener with the Out-Slot
pointer and the arguments of the event it meets; a `plain` callback takes no pointer. -/
def Callback.invoke {A W : Type} : Callback A W → Ptr → A → W → ListenerResult × W
  | Callback.plain fn, _, args, w => fn args w
  | Callback.withSlot fn, into, args, w => fn into args w

/-- Modelled from the spec: the constructor `Listener(instance, function, Filter(id))` of
the external bus, which subscribes the method `function` bound to its receiver (section 9:
a closure capturing the receiver). -/
def Listener.ofMember {A W Class : Type} (inst : Class)
    (function : Class → A → W → ListenerResult × W) (filter : String) : Listener A W :=
  { callback := Callback.plain fun args w => function inst args w, filter := filter }

/-- The result of `new Listener (...)`: a pointer to a listener on the free store, which no
scope owns. -/
structure ListenerPointer (A W : Type) where
  pointee : Listener A W

/-- The listeners registered with the bus, for the events of one Identity. -/
abbrev EventBuilder.Bus (I : EventBuilder) (σ : Type) : Type :=
  List (Listener I.Parameters (I.World σ))

/-! ## The Dispatch Adapter (`EventImpl`) -/

namespace EventImpl

/-- The function `EventImpl::postWithID`. -/
def postWithID {σ : Type} (I : EventBuilder) (bus : I.Bus σ) (id : String)
    (args : I.Parameters) (w : I.World σ) : ListenerResult × I.World σ :=
  if is_void_v I.EventReturn then (Event.plain id args).post bus w
  else (Event.withSlot id none args).post bus w

/-- The function `EventImpl::rawPostWithID`. The parameter `into` has the type
`EventReturnPointer`, whose only value is `nullptr` when `EventReturn` is `void`. -/
def rawPostWithID {σ : Type} (I : EventBuilder) (bus : I.Bus σ) (id : String) (into : Ptr)
    (args : I.Parameters) (w : I.World σ) : ListenerResult × I.World σ :=
  if is_void_v I.EventReturn then (Event.plain id args).post bus w
  else (Event.withSlot id into args).post bus w

/-- The function `EventImpl::receiveWithID`, with its `requires` clause as `_h`. The local
`EventReturn into;` is default-initialised; the result is its content after the post,
`none` when that content is indeterminate. -/
def receiveWithID {σ : Type} (I : EventBuilder) (_h : is_void_v I.EventReturn = false)
    (bus : I.Bus σ) (id : String) (args : I.Parameters) (w : I.World σ) :
    Option I.Value × I.World σ :=
  let into := w.alloc I.EventReturn.default_init
  let posted := (Event.withSlot id (some into.1) args).post bus into.2
  (posted.2.load into.1, posted.2)

/-- The function `EventImpl::receiveBothWithID`, with its `requires` clause as `_h`. -/
def receiveBothWithID {σ : Type} (I : EventBuilder) (_h : is_void_v I.EventReturn = false)
    (bus : I.Bus σ) (id : String) (args : I.Parameters) (w : I.World σ) :
    (ListenerResult × Option I.Value) × I.World σ :=
  let into := w.alloc I.EventReturn.default_init
  let posted := (Event.withSlot id (some into.1) args).post bus into.2
  ((posted.1, posted.2.load into.1), posted.2)

/-- The overload of `EventImpl::listenWithID` with the template parameter `result` (preset
result listening). The handler returns `void`. -/
def listenWithIDPreset {σ : Type} (I : EventBuilder) (result : ListenerResult) (id : String)
    (function : I.Parameters → I.World σ → I.World σ) :
    Listener I.Parameters (I.World σ) :=
  if is_void_v I.EventReturn then
    { callback := Callback.plain fun args w => (result, function args w), filter := id }
  else
    { callback := Callback.withSlot fun _ args w => (result, function args w), filter := id }

/-- The overload of `EventImpl::listenWithID` without `result` (unpreset result
listening). The handler returns the disposition. -/
def listenWithID {σ : Type} (I : EventBuilder) (id : String)
    (function : I.Parameters → I.World σ → ListenerResult × I.World σ) :
    Listener I.Parameters (I.World σ) :=
  if is_void_v I.EventReturn then
    { callback := Callback.plain function, filter := id }
  else
    { callback := Callback.withSlot fun _ args w => function args w, filter := id }

/-- The overload of `EventImpl::rawListenWithID` with the template parameter `result`. The
handler takes the `EventReturnPointer` first. -/
def rawListenWithIDPreset {σ : Type} (I : EventBuilder) (result : ListenerResult)
    (id : String) (function : Ptr → I.Parameters → I.World σ → I.World σ) :
    Listener I.Parameters (I.World σ) :=
  if is_void_v I.EventReturn then
    { callback := Callback.plain fun args w => (result, function none args w), filter := id }
  else
    { callback := Callback.withSlot fun into args w => (result, function into args w),
      filter := id }

/-- The overload of `EventImpl::rawListenWithID` without `result`. -/
def rawListenWithID {σ : Type} (I : EventBuilder) (id : String)
    (function : Ptr → I.Parameters → I.World σ → ListenerResult × I.World σ) :
    Listener I.Parameters (I.World σ) :=
  if is_void_v I.EventReturn then
    { callback := Callback.plain fun args w => function none args w, filter := id }
  else
    { callback := Callback.withSlot fun into args w => function into args w, filter := id }

/-- The overload of `EventImpl::sendWithID` with the template parameter `result` (preset
result sending), with the second conjunct of its `requires` clause as `_h`. -/
def sendWithIDPreset {σ : Type} (I : EventBuilder) (_h : is_void_v I.EventReturn = false)
    (result : ListenerResult) (id : String)
    (function : I.Parameters → I.World σ → I.Value × I.World σ) :
    Listener I.Parameters (I.World σ) :=
  { callback := Callback.withSlot fun into args w =>
      match into with
      | some p =>
        let r := function args w
        (result, r.2.store p r.1)
      | none =>
        let r := function args w
        (result, r.2),
    filter := id }

/-- The overload of `EventImpl::sendWithID` without `result` (unpreset result sending),
with the second conjunct of its `requires` clause as `_h`. -/
def sendWithID {σ : Type} (I : EventBuilder) (_h : is_void_v I.EventReturn = false)
    (id : String)
    (function : I.Parameters → I.World σ → (ListenerResult × I.Value) × I.World σ) :
    Listener I.Parameters (I.World σ) :=
  { callback := Callback.withSlot fun into args w =>
      match into with
      | some p =>
        let r := function args w
        (r.1.1, r.2.store p r.1.2)
      | none =>
        let r := function args w
        (r.1.1, r.2),
    filter := id }

/-- The template arguments of the alias `EventImpl::Filter`, the wire shape of the events of
an Identity: `DispatchFilter<EventParameters...>` or
`DispatchFilter<EventReturn*, EventParameters...>`. -/
def Filter (I : EventBuilder) : List CppType :=
  if is_void_v I.EventReturn then I.EventParameters
  else CppType.ptr I.EventReturn :: I.EventParameters

/-- The constant `EventImpl::ID` as the `const char*` the embedded-key operations pass on,
which their `requires` clause `_k` makes non-null. -/
def ID (I : EventBuilder) (_k : I.EventID.isNone = false) : String :=
  match I.EventID, _k with
  | some value, _ => value

/-- The function `EventImpl::post`, with its `requires` clause as `_k`. -/
def post {σ : Type} (I : EventBuilder) (_k : I.EventID.isNone = false) (bus : I.Bus σ)
    (args : I.Parameters) (w : I.World σ) : ListenerResult × I.World σ :=
  postWithID I bus (ID I _k) args w

/-- The function `EventImpl::rawPost`, with its `requires` clause as `_k`. -/
def rawPost {σ : Type} (I : EventBuilder) (_k : I.EventID.isNone = false) (bus : I.Bus σ)
    (into : Ptr) (args : I.Parameters) (w : I.World σ) : ListenerResult × I.World σ :=
  rawPostWithID I bus (ID I _k) into args w

/-- The function `EventImpl::receive`, with its `requires` clause as `_k` and `_h`. -/
def receive {σ : Type} (I : EventBuilder) (_k : I.EventID.isNone = false)
    (_h : is_void_v I.EventReturn = false) (bus : I.Bus σ) (args : I.Parameters)
    (w : I.World σ) : Option I.Value × I.World σ :=
  receiveWithID I _h bus (ID I _k) args w

/-- The function `EventImpl::receiveBoth`, with its `requires` clause as `_k` and `_h`. -/
def receiveBoth {σ : Type} (I : EventBuilder) (_k : I.EventID.isNone = false)
    (_h : is_void_v I.EventReturn = false) (bus : I.Bus σ) (args : I.Parameters)
    (w : I.World σ) : (ListenerResult × Option I.Value) × I.World σ :=
  receiveBothWithID I _h bus (ID I _k) args w

/-- The overload of `EventImpl::listenWithIDOn` with the template parameter `result`. The
method returns `void`. -/
def listenWithIDOnPreset {σ Class : Type} (I : EventBuilder) (result : ListenerResult)
    (id : String) (inst : Class) (function : Class → I.Parameters → I.World σ → I.World σ) :
    Listener I.Parameters (I.World σ) :=
  if is_void_v I.EventReturn then
    { callback := Callback.plain fun args w => (result, function inst args w), filter := id }
  else
    { callback := Callback.withSlot fun _ args w => (result, function inst args w),
      filter := id }

/-- The overload of `EventImpl::listenWithIDOn` without `result`. The method returns the
disposition. -/
def listenWithIDOn {σ Class : Type} (I : EventBuilder) (id : String) (inst : Class)
    (function : Class → I.Parameters → I.World σ → ListenerResult × I.World σ) :
    Listener I.Parameters (I.World σ) :=
  if is_void_v I.EventReturn then Listener.ofMember inst function id
  else
    { callback := Callback.withSlot fun _ args w => function inst args w, filter := id }

/-- The overload of `EventImpl::rawListenWithIDOn` with the template parameter `result`. -/
def rawListenWithIDOnPreset {σ Class : Type} (I : EventBuilder) (result : ListenerResult)
    (id : String) (inst : Class)
    (function : Class → Ptr → I.Parameters → I.World σ → I.World σ) :
    Listener I.Parameters (I.World σ) :=
  if is_void_v I.EventReturn then
    { callback := Callback.plain fun args w => (result, function inst none args w),
      filter := id }
  else
    { callback := Callback.withSlot fun into args w => (result, function inst into args w),
      filter := id }

/-- The overload of `EventImpl::rawListenWithIDOn` without `result`. -/
def rawListenWithIDOn {σ Class : Type} (I : EventBuilder) (id : String) (inst : Class)
    (function : Class → Ptr → I.Parameters → I.World σ → ListenerResult × I.World σ) :
    Listener I.Parameters (I.World σ) :=
  if is_void_v I.EventReturn then
    { callback := Callback.plain fun args w => function inst none args w, filter := id }
  else
    { callback := Callback.withSlot fun into args w => function inst into args w,
      filter := id }

/-- The overload of `EventImpl::sendWithIDOn` with the template parameter `result`, with
the second conjunct of its `requires` clause as `_h`. -/
def sendWithIDOnPreset {σ Class : Type} (I : EventBuilder)
    (_h : is_void_v I.EventReturn = false) (result : ListenerResult) (id : String)
    (inst : Class) (function : Class → I.Parameters → I.World σ → I.Value × I.World σ) :
    Listener I.Parameters (I.World σ) :=
  { callback := Callback.withSlot fun into args w =>
      match into with
      | some p =>
        let r := function inst args w
        (result, r.2.store p r.1)
      | none =>
        let r := function inst args w
        (result, r.2),
    filter := id }

/-- The overload of `EventImpl::sendWithIDOn` without `result`, with the second conjunct of
its `requires` clause as `_h`. -/
def sendWithIDOn {σ Class : Type} (I : EventBuilder) (_h : is_void_v I.EventReturn = false)
    (id : String) (inst : Class)
    (function : Class → I.Parameters → I.World σ → (ListenerResult × I.Value) × I.World σ) :
    Listener I.Parameters (I.World σ) :=
  { callback := Callback.withSlot fun into args w =>
      match into with
      | some p =>
        let r := function inst args w
        (r.1.1, r.2.store p r.1.2)
      | none =>
        let r := function inst args w
        (r.1.1, r.2),
    filter := id }

/-- The overload of `EventImpl::globalListenWithID` with `result`, generated by `CREATE_LISTENER`:
`new Listener (listenWithID<...>(id, ...))`. -/
def globalListenWithIDPreset {σ : Type} (I : EventBuilder) (result : ListenerResult)
    (id : String) (function : I.Parameters → I.World σ → I.World σ) :
    ListenerPointer I.Parameters (I.World σ) :=
  { pointee := listenWithIDPreset I result id function }

/-- The overload of `EventImpl::listen` with `result`, generated by `CREATE_LISTENER`:
`listenWithID<...>(EventImpl::ID, ...)`, with its `requires` clause as proofs. -/
def listenPreset {σ : Type} (I : EventBuilder) (_k : I.EventID.isNone = false)
    (result : ListenerResult) (function : I.Parameters → I.World σ → I.World σ) :
    Listener I.Parameters (I.World σ) :=
  listenWithIDPreset I result (ID I _k) function

/-- The overload of `EventImpl::globalListen` with `result`, generated by `CREATE_LISTENER`:
`globalListenWithID<...>(EventImpl::ID, ...)`, with its `requires` clause as proofs. -/
def globalListenPreset {σ : Type} (I : EventBuilder) (_k : I.EventID.isNone = false)
    (result : ListenerResult) (function : I.Parameters → I.World σ → I.World σ) :
    ListenerPointer I.Parameters (I.World σ) :=
  globalListenWithIDPreset I result (ID I _k) function

/-- The overload of `EventImpl::globalListenWithID` with no `result`,
generated by `CREATE_LISTENER`:
`new Listener (listenWithID<...>(id, ...))`. -/
def globalListenWithID {σ : Type} (I : EventBuilder) (id : String)
    (function : I.Parameters → I.World σ → ListenerResult × I.World σ) :
    ListenerPointer I.Parameters (I.World σ) :=
  { pointee := listenWithID I id function }

/-- The overload of `EventImpl::listen` with no `result`, generated by `CREATE_LISTENER`:
`listenWithID<...>(EventImpl::ID, ...)`, with its `requires` clause as proofs. -/
def listen {σ : Type} (I : EventBuilder) (_k : I.EventID.isNone = false)
    (function : I.Parameters → I.World σ → ListenerResult × I.World σ) :
    Listener I.Parameters (I.World σ) :=
  listenWithID I (ID I _k) function

/-- The overload of `EventImpl::globalListen` with no `result`, generated by `CREATE_LISTENER`:
`globalListenWithID<...>(EventImpl::ID, ...)`, with its `requires` clause as proofs. -/
def globalListen {σ : Type} (I : EventBuilder) (_k : I.EventID.isNone = false)
    (function : I.Parameters → I.World σ → ListenerResult × I.World σ) :
    ListenerPointer I.Parameters (I.World σ) :=
  globalListenWithID I (ID I _k) function

/-- The overload of `EventImpl::globalListenWithIDOn` with `result`,
generated by `CREATE_MEMBER_LISTENER`:
`new Listener (listenWithIDOn<...>(id, ...))`. -/
def globalListenWithIDOnPreset {σ Class : Type} (I : EventBuilder) (result : ListenerResult)
    (id : String) (inst : Class) (function : Class → I.Parameters → I.World σ → I.World σ) :
    ListenerPointer I.Parameters (I.World σ) :=
  { pointee := listenWithIDOnPreset I result id inst function }

/-- The overload of `EventImpl::listenOn` with `result`, generated by `CREATE_MEMBER_LISTENER`:
`listenWithIDOn<...>(EventImpl::ID, ...)`, with its `requires` clause as proofs. -/
def listenOnPreset {σ Class : Type} (I : EventBuilder) (_k : I.EventID.isNone = false)
    (result : ListenerResult) (inst : Class)
    (function : Class → I.Parameters → I.World σ → I.World σ) :
    Listener I.Parameters (I.World σ) :=
  listenWithIDOnPreset I result (ID I _k) inst function

/-- The overload of `EventImpl::globalListenOn` with `result`,
generated by `CREATE_MEMBER_LISTENER`:
`globalListenWithIDOn<...>(EventImpl::ID, ...)`, with its `requires` clause as proofs. -/
def globalListenOnPreset {σ Class : Type} (I : EventBuilder) (_k : I.EventID.isNone = false)
    (result : ListenerResult) (inst : Class)
    (function : Class → I.Parameters → I.World σ → I.World σ) :
    ListenerPointer I.Parameters (I.World σ) :=
  globalListenWithIDOnPreset I result (ID I _k) inst function

/-- The overload of `EventImpl::globalListenWithIDOn` with no `result`,
generated by `CREATE_MEMBER_LISTENER`:
`new Listener (listenWithIDOn<...>(id, ...))`. -/
def globalListenWithIDOn {σ Class : Type} (I : EventBuilder) (id : String) (inst : Class)
    (function : Class → I.Parameters → I.World σ → ListenerResult × I.World σ) :
    ListenerPointer I.Parameters (I.World σ) :=
  { pointee := listenWithIDOn I id inst function }

/-- The overload of `EventImpl::listenOn` with no `result`, generated by `CREATE_MEMBER_LISTENER`:
`listenWithIDOn<...>(EventImpl::ID, ...)`, with its `requires` clause as proofs. -/
def listenOn {σ Class : Type} (I : EventBuilder) (_k : I.EventID.isNone = false) (inst : Class)
    (function : Class → I.Parameters → I.World σ → ListenerResult × I.World σ) :
    Listener I.Parameters (I.World σ) :=
  listenWithIDOn I (ID I _k) inst function

/-- The overload of `EventImpl::globalListenOn` with no `result`,
generated by `CREATE_MEMBER_LISTENER`:
`globalListenWithIDOn<...>(EventImpl::ID, ...)`, with its `requires` clause as proofs. -/
def globalListenOn {σ Class : Type} (I : EventBuilder) (_k : I.EventID.isNone = false)
    (inst : Class) (function : Class → I.Parameters → I.World σ → ListenerResult × I.World σ) :
    ListenerPointer I.Parameters (I.World σ) :=
  globalListenWithIDOn I (ID I _k) inst function

/-- The overload of `EventImpl::globalRawListenWithID` with `result`,
generated by `CREATE_LISTENER`:
`new Listener (rawListenWithID<...>(id, ...))`. -/
def globalRawListenWithIDPreset {σ : Type} (I : EventBuilder) (result : ListenerResult)
    (id : String) (function : Ptr → I.Parameters → I.World σ → I.World σ) :
    ListenerPointer I.Parameters (I.World σ) :=
  { pointee := rawListenWithIDPreset I result id function }

/-- The overload of `EventImpl::rawListen` with `result`, generated by `CREATE_LISTENER`:
`rawListenWithID<...>(EventImpl::ID, ...)`, with its `requires` clause as proofs. -/
def rawListenPreset {σ : Type} (I : EventBuilder) (_k : I.EventID.isNone = false)
    (result : ListenerResult) (function : Ptr → I.Parameters → I.World σ → I.World σ) :
    Listener I.Parameters (I.World σ) :=
  rawListenWithIDPreset I result (ID I _k) function

/-- The overload of `EventImpl::globalRawListen` with `result`, generated by `CREATE_LISTENER`:
`globalRawListenWithID<...>(EventImpl::ID, ...)`, with its `requires` clause as proofs. -/
def globalRawListenPreset {σ : Type} (I : EventBuilder) (_k : I.EventID.isNone = false)
    (result : ListenerResult) (function : Ptr → I.Parameters → I.World σ → I.World σ) :
    ListenerPointer I.Parameters (I.World σ) :=
  globalRawListenWithIDPreset I result (ID I _k) function

/-- The overload of `EventImpl::globalRawListenWithID` with no `result`,
generated by `CREATE_LISTENER`:
`new Listener (rawListenWithID<...>(id, ...))`. -/
def globalRawListenWithID {σ : Type} (I : EventBuilder) (id : String)
    (function : Ptr → I.Parameters → I.World σ → ListenerResult × I.World σ) :
    ListenerPointer I.Parameters (I.World σ) :=
  { pointee := rawListenWithID I id function }

/-- The overload of `EventImpl::rawListen` with no `result`, generated by `CREATE_LISTENER`:
`rawListenWithID<...>(EventImpl::ID, ...)`, with its `requires` clause as proofs. -/
def rawListen {σ : Type} (I : EventBuilder) (_k : I.EventID.isNone = false)
    (function : Ptr → I.Parameters → I.World σ → ListenerResult × I.World σ) :
    Listener I.Parameters (I.World σ) :=
  rawListenWithID I (ID I _k) function

/-- The overload of `EventImpl::globalRawListen` with no `result`, generated by `CREATE_LISTENER`:
`globalRawListenWithID<...>(EventImpl::ID, ...)`, with its `requires` clause as proofs. -/
def globalRawListen {σ : Type} (I : EventBuilder) (_k : I.EventID.isNone = false)
    (function : Ptr → I.Parameters → I.World σ → ListenerResult × I.World σ) :
    ListenerPointer I.Parameters (I.World σ) :=
  globalRawListenWithID I (ID I _k) function

/-- The overload of `EventImpl::globalRawListenWithIDOn` with `result`,
generated by `CREATE_MEMBER_LISTENER`:
`new Listener (rawListenWithIDOn<...>(id, ...))`. -/
def globalRawListenWithIDOnPreset {σ Class : Type} (I : EventBuilder) (result : ListenerResult)
    (id : String) (inst : Class) (function : Class → Ptr → I.Parameters → I.World σ → I.World σ)
    :
    ListenerPointer I.Parameters (I.World σ) :=
  { pointee := rawListenWithIDOnPreset I result id inst function }

/-- The overload of `EventImpl::rawListenOn` with `result`, generated by `CREATE_MEMBER_LISTENER`:
`rawListenWithIDOn<...>(EventImpl::ID, ...)`, with its `requires` clause as proofs. -/
def rawListenOnPreset {σ Class : Type} (I : EventBuilder) (_k : I.EventID.isNone = false)
    (result : ListenerResult) (inst : Class)
    (function : Class → Ptr → I.Parameters → I.World σ → I.World σ) :
    Listener I.Parameters (I.World σ) :=
  rawListenWithIDOnPreset I result (ID I _k) inst function

/-- The overload of `EventImpl::globalRawListenOn` with `result`,
generated by `CREATE_MEMBER_LISTENER`:
`globalRawListenWithIDOn<...>(EventImpl::ID, ...)`, with its `requires` clause as proofs. -/
def globalRawListenOnPreset {σ Class : Type} (I : EventBuilder) (_k : I.EventID.isNone = false)
    (result : ListenerResult) (inst : Class)
    (function : Class → Ptr → I.Parameters → I.World σ → I.World σ) :
    ListenerPointer I.Parameters (I.World σ) :=
  globalRawListenWithIDOnPreset I result (ID I _k) inst function

/-- The overload of `EventImpl::globalRawListenWithIDOn` with no `result`,
generated by `CREATE_MEMBER_LISTENER`:
`new Listener (rawListenWithIDOn<...>(id, ...))`. -/
def globalRawListenWithIDOn {σ Class : Type} (I : EventBuilder) (id : String) (inst : Class)
    (function : Class → Ptr → I.Parameters → I.World σ → ListenerResult × I.World σ) :
    ListenerPointer I.Parameters (I.World σ) :=
  { pointee := rawListenWithIDOn I id inst function }

/-- The overload of `EventImpl::rawListenOn` with no `result`,
generated by `CREATE_MEMBER_LISTENER`:
`rawListenWithIDOn<...>(EventImpl::ID, ...)`, with its `requires` clause as proofs. -/
def rawListenOn {σ Class : Type} (I : EventBuilder) (_k : I.EventID.isNone = false)
    (inst : Class)
    (function : Class → Ptr → I.Parameters → I.World σ → ListenerResult × I.World σ) :
    Listener I.Parameters (I.World σ) :=
  rawListenWithIDOn I (ID I _k) inst function

/-- The overload of `EventImpl::globalRawListenOn` with no `result`,
generated by `CREATE_MEMBER_LISTENER`:
`globalRawListenWithIDOn<...>(EventImpl::ID, ...)`, with its `requires` clause as proofs. -/
def globalRawListenOn {σ Class : Type} (I : EventBuilder) (_k : I.EventID.isNone = false)
    (inst : Class)
    (function : Class → Ptr → I.Parameters → I.World σ → ListenerResult × I.World σ) :
    ListenerPointer I.Parameters (I.World σ) :=
  globalRawListenWithIDOn I (ID I _k) inst function

/-- The overload of `EventImpl::globalSendWithID` with `result`, generated by `CREATE_LISTENER`:
`new Listener (sendWithID<...>(id, ...))`. -/
def globalSendWithIDPreset {σ : Type} (I : EventBuilder) (_h : is_void_v I.EventReturn = false)
    (result : ListenerResult) (id : String)
    (function : I.Parameters → I.World σ → I.Value × I.World σ) :
    ListenerPointer I.Parameters (I.World σ) :=
  { pointee := sendWithIDPreset I _h result id function }

/-- The overload of `EventImpl::send` with `result`, generated by `CREATE_LISTENER`:
`sendWithID<...>(EventImpl::ID, ...)`, with its `requires` clause as proofs. -/
def sendPreset {σ : Type} (I : EventBuilder) (_k : I.EventID.isNone = false)
    (_h : is_void_v I.EventReturn = false) (result : ListenerResult)
    (function : I.Parameters → I.World σ → I.Value × I.World σ) :
    Listener I.Parameters (I.World σ) :=
  sendWithIDPreset I _h result (ID I _k) function

/-- The overload of `EventImpl::globalSend` with `result`, generated by `CREATE_LISTENER`:
`globalSendWithID<...>(EventImpl::ID, ...)`, with its `requires` clause as proofs. -/
def globalSendPreset {σ : Type} (I : EventBuilder) (_k : I.EventID.isNone = false)
    (_h : is_void_v I.EventReturn = false) (result : ListenerResult)
    (function : I.Parameters → I.World σ → I.Value × I.World σ) :
    ListenerPointer I.Parameters (I.World σ) :=
  globalSendWithIDPreset I _h result (ID I _k) function

/-- The overload of `EventImpl::globalSendWithID` with no `result`, generated by `CREATE_LISTENER`:
`new Listener (sendWithID<...>(id, ...))`. -/
def globalSendWithID {σ : Type} (I : EventBuilder) (_h : is_void_v I.EventReturn = false)
    (id : String) (function : I.Parameters → I.World σ → (ListenerResult × I.Value) × I.World σ)
    :
    ListenerPointer I.Parameters (I.World σ) :=
  { pointee := sendWithID I _h id function }

/-- The overload of `EventImpl::send` with no `result`, generated by `CREATE_LISTENER`:
`sendWithID<...>(EventImpl::ID, ...)`, with its `requires` clause as proofs. -/
def send {σ : Type} (I : EventBuilder) (_k : I.EventID.isNone = false)
    (_h : is_void_v I.EventReturn = false)
    (function : I.Parameters → I.World σ → (ListenerResult × I.Value) × I.World σ) :
    Listener I.Parameters (I.World σ) :=
  sendWithID I _h (ID I _k) function

/-- The overload of `EventImpl::globalSend` with no `result`, generated by `CREATE_LISTENER`:
`globalSendWithID<...>(EventImpl::ID, ...)`, with its `requires` clause as proofs. -/
def globalSend {σ : Type} (I : EventBuilder) (_k : I.EventID.isNone = false)
    (_h : is_void_v I.EventReturn = false)
    (function : I.Parameters → I.World σ → (ListenerResult × I.Value) × I.World σ) :
    ListenerPointer I.Parameters (I.World σ) :=
  globalSendWithID I _h (ID I _k) function

/-- The overload of `EventImpl::globalSendWithIDOn` with `result`,
generated by `CREATE_MEMBER_LISTENER`:
`new Listener (sendWithIDOn<...>(id, ...))`. -/
def globalSendWithIDOnPreset {σ Class : Type} (I : EventBuilder)
    (_h : is_void_v I.EventReturn = false) (result : ListenerResult) (id : String)
    (inst : Class) (function : Class → I.Parameters → I.World σ → I.Value × I.World σ) :
    ListenerPointer I.Parameters (I.World σ) :=
  { pointee := sendWithIDOnPreset I _h result id inst function }

/-- The overload of `EventImpl::sendOn` with `result`, generated by `CREATE_MEMBER_LISTENER`:
`sendWithIDOn<...>(EventImpl::ID, ...)`, with its `requires` clause as proofs. -/
def sendOnPreset {σ Class : Type} (I : EventBuilder) (_k : I.EventID.isNone = false)
    (_h : is_void_v I.EventReturn = false) (result : ListenerResult) (inst : Class)
    (function : Class → I.Parameters → I.World σ → I.Value × I.World σ) :
    Listener I.Parameters (I.World σ) :=
  sendWithIDOnPreset I _h result (ID I _k) inst function

/-- The overload of `EventImpl::globalSendOn` with `result`, generated by `CREATE_MEMBER_LISTENER`:
`globalSendWithIDOn<...>(EventImpl::ID, ...)`, with its `requires` clause as proofs. -/
def globalSendOnPreset {σ Class : Type} (I : EventBuilder) (_k : I.EventID.isNone = false)
    (_h : is_void_v I.EventReturn = false) (result : ListenerResult) (inst : Class)
    (function : Class → I.Parameters → I.World σ → I.Value × I.World σ) :
    ListenerPointer I.Parameters (I.World σ) :=
  globalSendWithIDOnPreset I _h result (ID I _k) inst function

/-- The overload of `EventImpl::globalSendWithIDOn` with no `result`,
generated by `CREATE_MEMBER_LISTENER`:
`new Listener (sendWithIDOn<...>(id, ...))`. -/
def globalSendWithIDOn {σ Class : Type} (I : EventBuilder)
    (_h : is_void_v I.EventReturn = false) (id : String) (inst : Class)
    (function : Class → I.Parameters → I.World σ → (ListenerResult × I.Value) × I.World σ) :
    ListenerPointer I.Parameters (I.World σ) :=
  { pointee := sendWithIDOn I _h id inst function }

/-- The overload of `EventImpl::sendOn` with no `result`, generated by `CREATE_MEMBER_LISTENER`:
`sendWithIDOn<...>(EventImpl::ID, ...)`, with its `requires` clause as proofs. -/
def sendOn {σ Class : Type} (I : EventBuilder) (_k : I.EventID.isNone = false)
    (_h : is_void_v I.EventReturn = false) (inst : Class)
    (function : Class → I.Parameters → I.World σ → (ListenerResult × I.Value) × I.World σ) :
    Listener I.Parameters (I.World σ) :=
  sendWithIDOn I _h (ID I _k) inst function

/-- The overload of `EventImpl::globalSendOn` with no `result`,
generated by `CREATE_MEMBER_LISTENER`:
`globalSendWithIDOn<...>(EventImpl::ID, ...)`, with its `requires` clause as proofs. -/
def globalSendOn {σ Class : Type} (I : EventBuilder) (_k : I.EventID.isNone = false)
    (_h : is_void_v I.EventReturn = false) (inst : Class)
    (function : Class → I.Parameters → I.World σ → (ListenerResult × I.Value) × I.World σ) :
    ListenerPointer I.Parameters (I.World σ) :=
  globalSendWithIDOn I _h (ID I _k) inst function

end EventImpl

/-! ## The declarations of `src/event-tester.cpp` -/

/-- The alias `MyEvent1 = EasyEvent::id<"my-event-id">::takes<int>`. -/
def MyEvent1 : EventBuilder :=
  { EventID := some "my-event-id", EventParameters := [CppType.int],
    EventReturn := CppType.void }

/-- The alias `MyEvent2 = EasyEvent::id<"my-event-id">::takes<int>::returns<int>`. -/
def MyEvent2 : EventBuilder :=
  { EventID := some "my-event-id", EventParameters := [CppType.int],
    EventReturn := CppType.int }

/-- The alias `MyEvent1NoID = EasyEvent::takes<int>`. -/
def MyEvent1NoID : EventBuilder :=
  { EventID := none, EventParameters := [CppType.int], EventReturn := CppType.void }

/-- The alias `MyEvent2NoID = EasyEvent::takes<int>::returns<int>`. -/
def MyEvent2NoID : EventBuilder :=
  { EventID := none, EventParameters := [CppType.int], EventReturn := CppType.int }

/-- A function type `Result(Parameters...)`, the kind of handler type the tests pass. -/
structure Signature where
  Parameters : List CppType
  Result : CppType
  deriving DecidableEq, Repr

/-- The type facts on function types, restricted to exact matches: a function is invocable
with its own parameter types and yields its result type, and a non-void type is assignable
from itself. The instances of the tests need no more. -/
def exactConcepts : StdConcepts Signature :=
  { invocable := fun F P => decide (F.Parameters = P),
    invoke_result_t := fun F _ => F.Result,
    assignable_from := fun L R => !is_void_v L && decide (L = R) }

/-- The type of `void test1(int)`. -/
def test1 : Signature := { Parameters := [CppType.int], Result := CppType.void }

/-- The type of `int test2(int x)`. -/
def test2 : Signature := { Parameters := [CppType.int], Result := CppType.int }

/-- The type of `geode::ListenerResult test3(int)`. -/
def test3 : Signature := { Parameters := [CppType.int], Result := CppType.listenerResult }

/-- The Identity of the round-trip scenario: key `"evt"`, takes `int`, returns `int`. -/
def evt : EventBuilder :=
  { EventID := some "evt", EventParameters := [CppType.int], EventReturn := CppType.int }

/-- The handler `f(x) = x * 2` of the round-trip scenario. -/
def double (x : Int) (w : World Int Unit) : Int × World Int Unit := (x * 2, w)

/-- The Identity of the explicit-key scenario: takes `string`, no return type, no key. -/
def msgEvent : EventBuilder :=
  { EventID := none, EventParameters := [CppType.string], EventReturn := CppType.void }

/-- A handler that records the arguments it observes in the state of the handlers. -/
def observe {R A : Type} (args : A) (w : World R (List A)) : World R (List A) :=
  { w with user := args :: w.user }

/-- A raw handler that assigns `99` through the pointer it is given. -/
def overwrite (into : Ptr) (_args : Int) (w : World Int Unit) : World Int Unit :=
  match into with
  | some p => w.store p 99
  | none => w

/-- A world with nothing allocated. -/
def World.empty {R σ : Type} (user : σ) : World R σ :=
  { mem := fun _ => none, next := 0, stores := [], user := user }

/-- A raw handler that records the pointer and the arguments it observes in the state of
the handlers. -/
def observeRaw {R A : Type} (into : Ptr) (args : A) (w : World R (List (Ptr × A))) :
    World R (List (Ptr × A)) :=
  { w with user := (into, args) :: w.user }

/-- The handler `f(x) = 1`. -/
def one (_x : Int) (w : World Int Unit) : Int × World Int Unit := (1, w)

/-- The Identity `EasyEvent::id<"my-event-id">::takes<int*, int>`, without return type. -/
def pointerFirst : EventBuilder :=
  { EventID := some "my-event-id", EventParameters := [CppType.ptr CppType.int, CppType.int],
    EventReturn := CppType.void }

/-- A registration on one key through the plain and the sending forms of the layer, the
forms whose handler is never given the Out-Slot. -/
inductive Registration (I : EventBuilder) (σ : Type) where
  | listenPreset (result : ListenerResult) (function : I.Parameters → I.World σ → I.World σ)
  | listen (function : I.Parameters → I.World σ → ListenerResult × I.World σ)
  | sendPreset (result : ListenerResult)
      (function : I.Parameters → I.World σ → I.Value × I.World σ)
  | send (function : I.Parameters → I.World σ → (ListenerResult × I.Value) × I.World σ)

/-- The listener a registration builds for the key `id`. -/
def Registration.toListener {σ : Type} (I : EventBuilder)
    (h : is_void_v I.EventReturn = false) (id : String) :
    Registration I σ → Listener I.Parameters (I.World σ)
  | Registration.listenPreset result function =>
    EventImpl.listenWithIDPreset I result id function
  | Registration.listen function => EventImpl.listenWithID I id function
  | Registration.sendPreset result function =>
    EventImpl.sendWithIDPreset I h result id function
  | Registration.send function => EventImpl.sendWithID I h id function

/-- The handler of a registration makes no assignment through an Out-Slot pointer itself:
it leaves the record of those assignments as it finds it. -/
def Registration.keepsStores {σ : Type} {I : EventBuilder} : Registration I σ → Prop
  | Registration.listenPreset _ function => ∀ a w, (function a w).stores = w.stores
  | Registration.listen function => ∀ a w, (function a w).2.stores = w.stores
  | Registration.sendPreset _ function => ∀ a w, (function a w).2.stores = w.stores
  | Registration.send function => ∀ a w, (function a w).2.stores = w.stores

/-- A sending registration returns `Stop` to the bus, by its fixed disposition or by the
disposition its handler decides on; plain registrations are free. -/
def Registration.sendsStop {σ : Type} {I : EventBuilder} : Registration I σ → Prop
  | Registration.listenPreset _ _ => True
  | Registration.listen _ => True
  | Registration.sendPreset result _ => result = ListenerResult.Stop
  | Registration.send function => ∀ a w, (function a w).1.1 = ListenerResult.Stop

/-- The registration is a sending one (`sendWithID`, either overload). -/
def Registration.isSending {σ : Type} {I : EventBuilder} : Registration I σ → Bool
  | Registration.listenPreset _ _ => false
  | Registration.listen _ => false
  | Registration.sendPreset _ _ => true
  | Registration.send _ => true

/-- The number of sending listeners the bus invokes during the post of the event with key
`id`, Out-Slot pointer `into` and arguments `args` to the listeners the registrations build
for `id`: the listeners meet the event in sequence until one returns `Stop`. -/
def Registration.sendersInvoked {σ : Type} (I : EventBuilder)
    (h : is_void_v I.EventReturn = false) (id : String) (into : Ptr) (args : I.Parameters) :
    List (Registration I σ) → I.World σ → Nat
  | [], _ => 0
  | r :: rest, w =>
    (match (r.toListener I h id).handle (Event.withSlot id into args) w with
      | (ListenerResult.Stop, _) => 0
      | (ListenerResult.Propagate, w1) =>
        Registration.sendersInvoked I h id into args rest w1) +
      (if r.isSending then 1 else 0)

/-! ## Theorems: the builder -/

/-- C9: the default Identity `EasyEvent` is the triple (no key, empty parameter list, no
return type): its `ID` is null, its `Takes` is the empty tuple and its `Returns` is
`void`. -/
theorem EasyEvent_default :
    EasyEvent.EventID = none ∧ EasyEvent.ID = none ∧ EasyEvent.Takes = [] ∧
      EasyEvent.Returns = CppType.void ∧ is_void_v EasyEvent.Returns = true := by
  refine ⟨rfl, rfl, rfl, rfl, rfl⟩

/-- C5: builder steps of different kinds commute. Applying `id<k>`, `takes<P...>` and
`returns<R>` to an Identity in any of the six orders yields the same Identity, the one with
key `k`, parameters `P` and return type `R`; in particular `takes` then `returns` equals
`returns` then `takes`. -/
theorem builder_steps_commute (I : EventBuilder) (k : String) (P : List CppType)
    (R : CppType) :
    ((I.id [k]).map fun J => (J.takes P).returns (some R)) =
        some { EventID := some k, EventParameters := P, EventReturn := R } ∧
      ((I.id [k]).map fun J => (J.returns (some R)).takes P) =
        some { EventID := some k, EventParameters := P, EventReturn := R } ∧
      (((I.takes P).id [k]).map fun J => J.returns (some R)) =
        some { EventID := some k, EventParameters := P, EventReturn := R } ∧
      ((I.takes P).returns (some R)).id [k] =
        some { EventID := some k, EventParameters := P, EventReturn := R } ∧
      (((I.returns (some R)).id [k]).map fun J => J.takes P) =
        some { EventID := some k, EventParameters := P, EventReturn := R } ∧
      ((I.returns (some R)).takes P).id [k] =
        some { EventID := some k, EventParameters := P, EventReturn := R } ∧
      (I.takes P).returns (some R) = (I.returns (some R)).takes P := by
  refine ⟨rfl, rfl, rfl, rfl, rfl, rfl, rfl⟩

/-- C6: a repeated builder step overwrites and never accumulates. `takes<P...>` then
`takes<Q...>` equals `takes<Q...>` alone, with parameter list exactly `Q`; likewise for `id`
(after `id<>` or `id<k>`, any pack `Id`; the key is exactly the last one given, or none after
`id<>`) and for `returns` (the return type is exactly the last one given, `void` after
`returns<>`); each step applied twice with the same argument equals applying it once; and
each step leaves the two other components of the triple unchanged. -/
theorem repeated_step_overwrites (I : EventBuilder) (P Q : List CppType) (k k' : String)
    (Id : List String) (R S : Option CppType) (T : CppType) :
    ((I.takes P).takes Q = I.takes Q ∧ ((I.takes P).takes Q).EventParameters = Q ∧
        ((I.id [k]).bind fun J => J.id Id) = I.id Id ∧
        ((I.id []).bind fun J => J.id Id) = I.id Id ∧
        (I.returns R).returns S = I.returns S) ∧
      ((I.takes P).takes P = I.takes P ∧
        ((I.id Id).bind fun J => J.id Id) = I.id Id ∧
        (I.returns R).returns R = I.returns R) ∧
      ((I.takes P).EventID = I.EventID ∧ (I.takes P).EventReturn = I.EventReturn ∧
        (I.returns R).EventID = I.EventID ∧
        (I.returns R).EventParameters = I.EventParameters ∧
        ((I.id [k]).map fun J => (J.EventParameters, J.EventReturn)) =
          some (I.EventParameters, I.EventReturn) ∧
        ((I.id []).map fun J => (J.EventParameters, J.EventReturn)) =
          some (I.EventParameters, I.EventReturn)) ∧
      ((I.takes P).takes Q =
          { EventID := I.EventID, EventParameters := Q, EventReturn := I.EventReturn } ∧
        (I.takes Q).EventParameters = Q) ∧
      (((I.id [k]).bind fun J => J.id [k']) =
          some { EventID := some k', EventParameters := I.EventParameters,
                 EventReturn := I.EventReturn } ∧
        ((I.id [k]).bind fun J => J.id []) =
          some { EventID := none, EventParameters := I.EventParameters,
                 EventReturn := I.EventReturn } ∧
        ((I.id []).bind fun J => J.id [k']) =
          some { EventID := some k', EventParameters := I.EventParameters,
                 EventReturn := I.EventReturn } ∧
        ((I.id [k]).bind fun J => J.id [k]) =
          some { EventID := some k, EventParameters := I.EventParameters,
                 EventReturn := I.EventReturn } ∧
        ((I.id [k]).map fun J => J.EventID) = some (some k) ∧
        ((I.id []).map fun J => J.EventID) = some none ∧
        (((I.id [k]).bind fun J => J.id [k']).map fun J => J.ID) = some (some k')) ∧
      ((I.returns R).returns (some T) =
          { EventID := I.EventID, EventParameters := I.EventParameters, EventReturn := T } ∧
        (I.returns R).returns none =
          { EventID := I.EventID, EventParameters := I.EventParameters,
            EventReturn := CppType.void } ∧
        ((I.returns R).returns (some T)).EventReturn = T ∧
        ((I.returns R).returns (some T)).Returns = T ∧
        (I.returns (some T)).EventReturn = T ∧
        (I.returns none).EventReturn = CppType.void) := by
  refine ⟨⟨rfl, rfl, ?_, ?_, rfl⟩, ⟨rfl, ?_, rfl⟩, ⟨rfl, rfl, rfl, rfl, rfl, rfl⟩,
    ⟨rfl, rfl⟩, ⟨rfl, rfl, rfl, rfl, rfl, rfl, rfl⟩, ⟨rfl, rfl, rfl, rfl, rfl, rfl⟩⟩
  · rcases Id with _ | ⟨a, _ | ⟨b, t⟩⟩ <;> rfl
  · rcases Id with _ | ⟨a, _ | ⟨b, t⟩⟩ <;> rfl
  · rcases Id with _ | ⟨a, _ | ⟨b, t⟩⟩ <;> rfl

/-- C7: `returns<>` (no argument) equals `returns<void>`, and the result has no return type
whatever return type the Identity had before, with key and parameters unchanged. -/
theorem returns_default_clears (I : EventBuilder) :
    I.returns none = I.returns (some CppType.void) ∧
      (I.returns none).Returns = CppType.void ∧
      is_void_v (I.returns none).EventReturn = true ∧
      (I.returns none).EventID = I.EventID ∧ (I.returns none).ID = I.ID ∧
      (I.returns none).EventParameters = I.EventParameters := by
  refine ⟨rfl, rfl, rfl, rfl, rfl, rfl⟩

/-- C8: the key-builder step `id<...>`. With exactly one string literal `k` it yields the
Identity with key `k` (`ID` equals `k`); with more than one literal it is rejected, never
truncated to the first; with zero literals it yields the Identity with no key (`ID` is
null); parameters and return type are unchanged in every accepted case, and the accepted
cases are the packs of at most one literal. -/
theorem id_step (I : EventBuilder) (k k1 k2 : String) (rest Id : List String) :
    (I.id [k] =
        some { EventID := some k, EventParameters := I.EventParameters,
               EventReturn := I.EventReturn } ∧
        ((I.id [k]).map fun J => J.ID) = some (some k)) ∧
      I.id (k1 :: k2 :: rest) = none ∧
      (I.id [] =
        some { EventID := none, EventParameters := I.EventParameters,
               EventReturn := I.EventReturn } ∧
        ((I.id []).map fun J => J.ID) = some none) ∧
      (I.id Id).isSome = decide (Id.length ≤ 1) ∧
      ((I.id Id).map fun J => (J.EventParameters, J.EventReturn)) =
        if Id.length ≤ 1 then some (I.EventParameters, I.EventReturn) else none := by
  refine ⟨⟨rfl, rfl⟩, rfl, ⟨rfl, rfl⟩, ?_, ?_⟩
  · rcases Id with _ | ⟨a, _ | ⟨b, t⟩⟩ <;> simp [EventBuilder.id, EventBuilder.makeIdType]
  · rcases Id with _ | ⟨a, _ | ⟨b, t⟩⟩ <;> simp [EventBuilder.id, EventBuilder.makeIdType]

/-! ## Theorems: which operations an Identity offers -/

/-- C1, as stated, fails on `MyEvent1` of the tests, which is built with `id<"my-event-id">`
and so has a key: its embedded-key `receive`, `receiveBoth` and `send` are rejected all the
same, and so is its explicit-key `sendWithID`, for the handler `test2` that `MyEvent2`
accepts. -/
theorem keyed_identity_rejects_receive_and_send :
    ((EasyEvent.id ["my-event-id"]).map fun J => J.takes [CppType.int]) = some MyEvent1 ∧
      MyEvent1.ID = some "my-event-id" ∧
      postRequires MyEvent1 PostOp.receive KeySource.preset = false ∧
      postRequires MyEvent1 PostOp.receiveBoth KeySource.preset = false ∧
      listenerRequires exactConcepts MyEvent1
        { shape := Shape.send, binding := Binding.function, scope := Scope.scoped,
          key := KeySource.preset, policy := Policy.templated } test2 = false ∧
      listenerRequires exactConcepts MyEvent1
        { shape := Shape.send, binding := Binding.function, scope := Scope.scoped,
          key := KeySource.withID, policy := Policy.templated } test2 = false ∧
      listenerRequires exactConcepts MyEvent2
        { shape := Shape.send, binding := Binding.function, scope := Scope.scoped,
          key := KeySource.preset, policy := Policy.templated } test2 = true := by
  decide

/-- C1, amended: every embedded-key operation is rejected on an Identity without a key; once
the key is set with `id<"x">` it is available exactly when its explicit-key (`WithID`)
counterpart is; the explicit-key forms do not depend on the key: `postWithID` and
`rawPostWithID` are always available, `listenWithID` and `rawListenWithID` (with their `On`
and global forms) for every valid handler, `receiveWithID`, `receiveBothWithID` and the
`sendWithID` forms when, in addition, the Identity has a return type. -/
theorem embedded_key_gate {Function : Type} (std : StdConcepts Function)
    (P : List CppType) (R : CppType) (x : String) (F : Function) (op : PostOp) (s : Shape)
    (b : Binding) (sc : Scope) (p : Policy) :
    EventBuilder.id { EventID := none, EventParameters := P, EventReturn := R } [x] =
        some { EventID := some x, EventParameters := P, EventReturn := R } ∧
      (postRequires { EventID := none, EventParameters := P, EventReturn := R } op
          KeySource.preset = false ∧
        listenerRequires std { EventID := none, EventParameters := P, EventReturn := R }
          { shape := s, binding := b, scope := sc, key := KeySource.preset, policy := p } F =
          false) ∧
      (postRequires { EventID := some x, EventParameters := P, EventReturn := R } op
          KeySource.preset =
          postRequires { EventID := some x, EventParameters := P, EventReturn := R } op
            KeySource.withID ∧
        listenerRequires std { EventID := some x, EventParameters := P, EventReturn := R }
          { shape := s, binding := b, scope := sc, key := KeySource.preset, policy := p } F =
          listenerRequires std { EventID := some x, EventParameters := P, EventReturn := R }
            { shape := s, binding := b, scope := sc, key := KeySource.withID, policy := p }
            F) ∧
      (postRequires { EventID := some x, EventParameters := P, EventReturn := R } op
          KeySource.withID =
          postRequires { EventID := none, EventParameters := P, EventReturn := R } op
            KeySource.withID ∧
        listenerRequires std { EventID := some x, EventParameters := P, EventReturn := R }
          { shape := s, binding := b, scope := sc, key := KeySource.withID, policy := p } F =
          listenerRequires std { EventID := none, EventParameters := P, EventReturn := R }
            { shape := s, binding := b, scope := sc, key := KeySource.withID, policy := p }
            F) ∧
      (postRequires { EventID := none, EventParameters := P, EventReturn := R }
          PostOp.post KeySource.withID = true ∧
        postRequires { EventID := none, EventParameters := P, EventReturn := R }
          PostOp.rawPost KeySource.withID = true ∧
        postRequires { EventID := none, EventParameters := P, EventReturn := R }
          PostOp.receive KeySource.withID = !is_void_v R ∧
        postRequires { EventID := none, EventParameters := P, EventReturn := R }
          PostOp.receiveBoth KeySource.withID = !is_void_v R ∧
        listenerRequires std { EventID := none, EventParameters := P, EventReturn := R }
          { shape := Shape.listen, binding := b, scope := sc, key := KeySource.withID,
            policy := p } F =
          handlerRequires std { EventID := none, EventParameters := P, EventReturn := R }
            { shape := Shape.listen, binding := b, scope := sc, key := KeySource.withID,
              policy := p } F ∧
        listenerRequires std { EventID := none, EventParameters := P, EventReturn := R }
          { shape := Shape.rawListen, binding := b, scope := sc, key := KeySource.withID,
            policy := p } F =
          handlerRequires std { EventID := none, EventParameters := P, EventReturn := R }
            { shape := Shape.rawListen, binding := b, scope := sc, key := KeySource.withID,
              policy := p } F ∧
        listenerRequires std { EventID := none, EventParameters := P, EventReturn := R }
          { shape := Shape.send, binding := b, scope := sc, key := KeySource.withID,
            policy := p } F =
          (handlerRequires std { EventID := none, EventParameters := P, EventReturn := R }
            { shape := Shape.send, binding := b, scope := sc, key := KeySource.withID,
              policy := p } F && !is_void_v R)) := by
  refine ⟨rfl, ⟨?_, ?_⟩, ⟨?_, ?_⟩, ⟨?_, ?_⟩, rfl, rfl, rfl, rfl, ?_, ?_, rfl⟩
  · cases op <;> rfl
  · cases s <;> simp [listenerRequires, ExtraRequiresClause]
  · cases op <;> simp [postRequires]
  · cases s <;> simp [listenerRequires, ExtraRequiresClause, handlerRequires]
  · cases op <;> rfl
  · cases s <;> cases b <;> rfl
  · simp [listenerRequires, ExtraRequiresClause]
  · simp [listenerRequires, ExtraRequiresClause]

/-- C2, as stated, fails on the keyless Identities of the tests: `MyEvent2NoID` has the
return type `int`, yet its `receive`, `receiveBoth` and `send` are rejected (for the handler
`test2` that `MyEvent2` accepts), and `MyEvent1NoID`, whose return type is absent, does not
keep `post`, `rawPost` and `listen` (for the handler `test1` that `MyEvent1` accepts). -/
theorem keyless_identity_rejects_embedded_forms :
    is_void_v MyEvent2NoID.Returns = false ∧
      postRequires MyEvent2NoID PostOp.receive KeySource.preset = false ∧
      postRequires MyEvent2NoID PostOp.receiveBoth KeySource.preset = false ∧
      listenerRequires exactConcepts MyEvent2NoID
        { shape := Shape.send, binding := Binding.function, scope := Scope.scoped,
          key := KeySource.preset, policy := Policy.templated } test2 = false ∧
      is_void_v MyEvent1NoID.Returns = true ∧
      postRequires MyEvent1NoID PostOp.post KeySource.preset = false ∧
      postRequires MyEvent1NoID PostOp.rawPost KeySource.preset = false ∧
      listenerRequires exactConcepts MyEvent1NoID
        { shape := Shape.listen, binding := Binding.function, scope := Scope.scoped,
          key := KeySource.preset, policy := Policy.templated } test1 = false ∧
      listenerRequires exactConcepts MyEvent1
        { shape := Shape.listen, binding := Binding.function, scope := Scope.scoped,
          key := KeySource.preset, policy := Policy.templated } test1 = true := by
  decide

/-- C2, amended: on an Identity whose return type is absent (`void`), `receive`,
`receiveBoth`, `receiveWithID`, `receiveBothWithID` and every `send` / `sendWithID` variant
are rejected for every handler. The absence takes nothing from `post`, `rawPost`, `listen`
and `rawListen`: whatever the return type, these are available exactly under their other
conditions (a key for the embedded-key forms, a valid handler for the listeners). On an
Identity with a return type the value-returning operations are available under those same
other conditions. -/
theorem return_type_gate {Function : Type} (std : StdConcepts Function)
    (K : Option String) (P : List CppType) (R : CppType) (F : Function) (b : Binding)
    (sc : Scope) (key : KeySource) (p : Policy) :
    (postRequires { EventID := K, EventParameters := P, EventReturn := CppType.void }
          PostOp.receive key = false ∧
        postRequires { EventID := K, EventParameters := P, EventReturn := CppType.void }
          PostOp.receiveBoth key = false ∧
        listenerRequires std
          { EventID := K, EventParameters := P, EventReturn := CppType.void }
          { shape := Shape.send, binding := b, scope := sc, key := key, policy := p } F =
          false) ∧
      (postRequires { EventID := K, EventParameters := P, EventReturn := R } PostOp.post key =
          (decide (key = KeySource.withID) || K.isSome) ∧
        postRequires { EventID := K, EventParameters := P, EventReturn := R } PostOp.rawPost
          key = (decide (key = KeySource.withID) || K.isSome) ∧
        listenerRequires std { EventID := K, EventParameters := P, EventReturn := R }
          { shape := Shape.listen, binding := b, scope := sc, key := key, policy := p } F =
          (handlerRequires std { EventID := K, EventParameters := P, EventReturn := R }
            { shape := Shape.listen, binding := b, scope := sc, key := key, policy := p } F &&
            (decide (key = KeySource.withID) || K.isSome)) ∧
        listenerRequires std { EventID := K, EventParameters := P, EventReturn := R }
          { shape := Shape.rawListen, binding := b, scope := sc, key := key, policy := p } F =
          (handlerRequires std { EventID := K, EventParameters := P, EventReturn := R }
            { shape := Shape.rawListen, binding := b, scope := sc, key := key, policy := p }
            F && (decide (key = KeySource.withID) || K.isSome))) ∧
      (postRequires { EventID := K, EventParameters := P, EventReturn := R } PostOp.receive
          key = ((decide (key = KeySource.withID) || K.isSome) && !is_void_v R) ∧
        postRequires { EventID := K, EventParameters := P, EventReturn := R }
          PostOp.receiveBoth key =
          ((decide (key = KeySource.withID) || K.isSome) && !is_void_v R) ∧
        listenerRequires std { EventID := K, EventParameters := P, EventReturn := R }
          { shape := Shape.send, binding := b, scope := sc, key := key, policy := p } F =
          (handlerRequires std { EventID := K, EventParameters := P, EventReturn := R }
            { shape := Shape.send, binding := b, scope := sc, key := key, policy := p } F &&
            ((decide (key = KeySource.withID) || K.isSome) && !is_void_v R))) := by
  refine ⟨⟨?_, ?_, ?_⟩, ⟨?_, ?_, ?_, ?_⟩, ⟨?_, ?_, ?_⟩⟩ <;> cases key <;> cases K <;>
    simp [postRequires, listenerRequires, ExtraRequiresClause, is_void_v]

/-! ## Theorems: posting and listening through the bus -/

/-- A listener whose filter has another key lets the event pass and changes nothing. -/
theorem Listener.handle_of_filter_ne {A W : Type} (l : Listener A W) (ev : Event A) (w : W)
    (h : l.filter ≠ ev.id) : l.handle ev w = (ListenerResult.Propagate, w) := by
  rcases l with ⟨cb, key⟩
  cases cb <;> cases ev <;> simp_all [Listener.handle, Event.id, eq_comm]

/-- A post that meets no listener on its key changes nothing. -/
theorem Event.post_of_no_listener {A W : Type} (ev : Event A) (bus : List (Listener A W))
    (w : W) (h : ∀ l ∈ bus, l.filter ≠ ev.id) :
    ev.post bus w = (ListenerResult.Propagate, w) := by
  induction bus with
  | nil => rfl
  | cons l rest ih =>
    have hl : l.handle ev w = (ListenerResult.Propagate, w) :=
      Listener.handle_of_filter_ne l ev w (h l (List.mem_cons_self l rest))
    have hrest : ∀ m ∈ rest, m.filter ≠ ev.id := fun m hm => h m (List.mem_cons_of_mem l hm)
    simp only [Event.post, hl]
    exact ih hrest

/-- Listeners on other keys in front of the bus do not take part in a post. -/
theorem Event.post_append_of_no_listener {A W : Type} (ev : Event A)
    (pre rest : List (Listener A W)) (w : W) (h : ∀ l ∈ pre, l.filter ≠ ev.id) :
    ev.post (pre ++ rest) w = ev.post rest w := by
  induction pre with
  | nil => rfl
  | cons l pre ih =>
    have hl : l.handle ev w = (ListenerResult.Propagate, w) :=
      Listener.handle_of_filter_ne l ev w (h l (List.mem_cons_self l pre))
    have hpre : ∀ m ∈ pre, m.filter ≠ ev.id := fun m hm => h m (List.mem_cons_of_mem l hm)
    simp only [List.cons_append, Event.post, hl]
    exact ih hpre

/-- When the only listener on the key of an event is `l`, the post is the meeting of the
event with `l`. -/
theorem Event.post_of_single_listener {A W : Type} (ev : Event A)
    (pre suf : List (Listener A W)) (l : Listener A W) (w : W)
    (hpre : ∀ m ∈ pre, m.filter ≠ ev.id) (hsuf : ∀ m ∈ suf, m.filter ≠ ev.id) :
    ev.post (pre ++ l :: suf) w = l.handle ev w := by
  rw [Event.post_append_of_no_listener ev pre (l :: suf) w hpre]
  rcases hl : l.handle ev w with ⟨d, w1⟩
  cases d
  · simp only [Event.post, hl]
    exact Event.post_of_no_listener ev suf w1 hsuf
  · simp only [Event.post, hl]

/-- The post on a bus with one listener is the meeting of the event with that listener. -/
theorem Event.post_singleton {A W : Type} (ev : Event A) (l : Listener A W) (w : W) :
    ev.post [l] w = l.handle ev w :=
  Event.post_of_single_listener ev [] [] l w (fun _ hm => by cases hm) (fun _ hm => by cases hm)

/-- C3: receive round trip. On an Identity with a return type, when the one listener
registered on `k` was registered by `sendWithID<d>(k, f)` (the listeners before and after it
filter on other keys), `receiveWithID(k, a)` returns `f(a)` and `receiveBothWithID(k, a)`
returns `(d, f(a))`; the handler ran once, in the world where the Out-Slot had just been
allocated, and its value was assigned to the Out-Slot. -/
theorem receive_round_trip {σ : Type} (I : EventBuilder)
    (h : is_void_v I.EventReturn = false) (k : String) (a : I.Parameters)
    (d : ListenerResult) (f : I.Parameters → I.World σ → I.Value × I.World σ)
    (pre suf : I.Bus σ) (w : I.World σ)
    (hpre : ∀ l ∈ pre, l.filter ≠ k) (hsuf : ∀ l ∈ suf, l.filter ≠ k) :
    (EventImpl.receiveWithID I h (pre ++ EventImpl.sendWithIDPreset I h d k f :: suf)
          k a w).1 = some (f a (w.alloc I.EventReturn.default_init).2).1 ∧
      (EventImpl.receiveBothWithID I h (pre ++ EventImpl.sendWithIDPreset I h d k f :: suf)
          k a w).1 = (d, some (f a (w.alloc I.EventReturn.default_init).2).1) ∧
      (EventImpl.receiveWithID I h (pre ++ EventImpl.sendWithIDPreset I h d k f :: suf)
          k a w).2 =
        (f a (w.alloc I.EventReturn.default_init).2).2.store
          (w.alloc I.EventReturn.default_init).1
          (f a (w.alloc I.EventReturn.default_init).2).1 := by
  have hpost :
      (Event.withSlot k (some (w.alloc I.EventReturn.default_init).1) a).post
          (pre ++ EventImpl.sendWithIDPreset I h d k f :: suf)
          (w.alloc I.EventReturn.default_init).2 =
        (d, (f a (w.alloc I.EventReturn.default_init).2).2.store
          (w.alloc I.EventReturn.default_init).1
          (f a (w.alloc I.EventReturn.default_init).2).1) := by
    rw [Event.post_of_single_listener
      (Event.withSlot k (some (w.alloc I.EventReturn.default_init).1) a) pre suf _ _ hpre hsuf]
    simp [Listener.handle, EventImpl.sendWithIDPreset]
  simp only [EventImpl.receiveWithID, EventImpl.receiveBothWithID, hpost]
  simp [World.load, World.store]

/-- C3, the scenario of the spec: key `"evt"`, takes `int`, returns `int`, a listener
`f(x) = x * 2` with fixed disposition `Stop` behind a listener on another key; receiving
with `5` yields `10`, and `(Stop, 10)` with the disposition. -/
theorem receive_round_trip_witness :
    (EventImpl.receiveWithID evt rfl
          ([EventImpl.sendWithIDPreset evt rfl ListenerResult.Propagate "other" double] ++
            EventImpl.sendWithIDPreset evt rfl ListenerResult.Stop "evt" double :: [])
          "evt" (5 : Int) (World.empty ())).1 = some (10 : Int) ∧
      (EventImpl.receiveBothWithID evt rfl
          ([EventImpl.sendWithIDPreset evt rfl ListenerResult.Propagate "other" double] ++
            EventImpl.sendWithIDPreset evt rfl ListenerResult.Stop "evt" double :: [])
          "evt" (5 : Int) (World.empty ())).1 = (ListenerResult.Stop, some (10 : Int)) :=
  have t := receive_round_trip evt rfl "evt" (5 : Int) ListenerResult.Stop double
    [EventImpl.sendWithIDPreset evt rfl ListenerResult.Propagate "other" double] []
    (World.empty ())
    (by intro l hl; rw [List.mem_singleton] at hl; subst hl; decide)
    (by intro l hl; cases hl)
  ⟨t.1, t.2.1⟩

/-- C4: on an Identity with a return type, when no listener is registered on `k`, a
caller-owned Out-Slot that holds `v0` still holds `v0` after `rawPostWithID(k, &slot, a)`
returns. -/
theorem rawPost_without_listener_keeps_slot {σ : Type} (I : EventBuilder)
    (h : is_void_v I.EventReturn = false) (bus : I.Bus σ) (k : String) (slot : Addr)
    (a : I.Parameters) (v0 : I.Value) (w : I.World σ)
    (hno : ∀ l ∈ bus, l.filter ≠ k) (hv0 : w.load slot = some v0) :
    (EventImpl.rawPostWithID I bus k (some slot) a w).2.load slot = some v0 := by
  have hpost :
      (Event.withSlot k (some slot) a).post bus w = (ListenerResult.Propagate, w) :=
    Event.post_of_no_listener (Event.withSlot k (some slot) a) bus w hno
  simp only [EventImpl.rawPostWithID, h, hpost]
  simpa using hv0

/-- C4 on `MyEvent2` of the tests: the slot holds `7`, the only listener is registered on
`"my-event-id"` and would assign `99`; after a raw post on `"my-event-id-overridden"` the
slot holds `7`. -/
theorem rawPost_without_listener_keeps_slot_witness :
    (EventImpl.rawPostWithID MyEvent2
        [EventImpl.rawListenWithIDPreset MyEvent2 ListenerResult.Propagate "my-event-id"
          overwrite]
        "my-event-id-overridden" (some 0) (5 : Int)
        ((World.empty ()).alloc (some (7 : Int))).2).2.load 0 = some (7 : Int) :=
  rawPost_without_listener_keeps_slot MyEvent2 rfl
    [EventImpl.rawListenWithIDPreset MyEvent2 ListenerResult.Propagate "my-event-id"
      overwrite]
    "my-event-id-overridden" 0 (5 : Int) (7 : Int) ((World.empty ()).alloc (some (7 : Int))).2
    (by intro l hl; rw [List.mem_singleton] at hl; subst hl; decide)
    rfl

/-- C10: every explicit-key (`WithID`) operation uses exactly the key it is given, on every
Identity, with or without an embedded key. The listeners built by `listenWithID`,
`rawListenWithID` and `sendWithID` for `k` are filtered on `k`, and `postWithID`,
`rawPostWithID` and `receiveWithID` for `k` submit an event whose key is `k`. Hence, for
`k' ≠ k`, a post on `k'` (by `postWithID`, `rawPostWithID` or `receiveWithID`) invokes none
of the listeners registered on `k` (nothing changes, and the received slot keeps its
initial content), and a post on `k` by each of the three invokes the listener registered on
`k`, of each of the six forms, once, with the posted arguments. -/
theorem withID_uses_the_given_key {σ : Type} (I : EventBuilder) (k k' : String)
    (d : ListenerResult) (f : I.Parameters → I.World σ → I.World σ)
    (g : I.Parameters → I.World σ → ListenerResult × I.World σ)
    (rf : Ptr → I.Parameters → I.World σ → I.World σ)
    (rg : Ptr → I.Parameters → I.World σ → ListenerResult × I.World σ)
    (bus onK : I.Bus σ) (into : Ptr) (p : Addr) (a : I.Parameters) (w : I.World σ)
    (hk : k' ≠ k) (honK : ∀ l ∈ onK, l.filter = k) :
    ((EventImpl.listenWithIDPreset I d k f).filter = k ∧
        (EventImpl.listenWithID I k g).filter = k ∧
        (EventImpl.rawListenWithIDPreset I d k rf).filter = k ∧
        (EventImpl.rawListenWithID I k rg).filter = k ∧
        (∀ (h : is_void_v I.EventReturn = false)
            (sf : I.Parameters → I.World σ → I.Value × I.World σ),
          (EventImpl.sendWithIDPreset I h d k sf).filter = k) ∧
        (∀ (h : is_void_v I.EventReturn = false)
            (sg : I.Parameters → I.World σ → (ListenerResult × I.Value) × I.World σ),
          (EventImpl.sendWithID I h k sg).filter = k)) ∧
      ((∃ ev : Event I.Parameters,
          ev.id = k ∧ EventImpl.postWithID I bus k a w = ev.post bus w) ∧
        (∃ ev : Event I.Parameters,
          ev.id = k ∧ EventImpl.rawPostWithID I bus k into a w = ev.post bus w) ∧
        (∀ h : is_void_v I.EventReturn = false, ∃ ev : Event I.Parameters,
          ev.id = k ∧
            (EventImpl.receiveWithID I h bus k a w).2 =
              (ev.post bus (w.alloc I.EventReturn.default_init).2).2 ∧
            (EventImpl.receiveBothWithID I h bus k a w).2 =
              (ev.post bus (w.alloc I.EventReturn.default_init).2).2)) ∧
      (EventImpl.postWithID I onK k' a w = (ListenerResult.Propagate, w) ∧
        EventImpl.rawPostWithID I onK k' into a w = (ListenerResult.Propagate, w)) ∧
      (EventImpl.postWithID I [EventImpl.listenWithIDPreset I d k f] k a w = (d, f a w) ∧
        EventImpl.postWithID I [EventImpl.listenWithID I k g] k a w = g a w ∧
        EventImpl.postWithID I [EventImpl.rawListenWithIDPreset I d k rf] k a w =
          (d, rf none a w) ∧
        ∀ (h : is_void_v I.EventReturn = false)
            (sf : I.Parameters → I.World σ → I.Value × I.World σ),
          EventImpl.postWithID I [EventImpl.sendWithIDPreset I h d k sf] k a w =
            (d, (sf a w).2)) ∧
      (EventImpl.postWithID I [EventImpl.rawListenWithID I k rg] k a w = rg none a w ∧
        ∀ (h : is_void_v I.EventReturn = false)
            (sg : I.Parameters → I.World σ → (ListenerResult × I.Value) × I.World σ),
          EventImpl.postWithID I [EventImpl.sendWithID I h k sg] k a w =
            ((sg a w).1.1, (sg a w).2)) ∧
      (EventImpl.rawPostWithID I [EventImpl.listenWithIDPreset I d k f] k into a w =
          (d, f a w) ∧
        EventImpl.rawPostWithID I [EventImpl.listenWithID I k g] k into a w = g a w ∧
        EventImpl.rawPostWithID I [EventImpl.rawListenWithIDPreset I d k rf] k into a w =
          (d, rf (if is_void_v I.EventReturn then none else into) a w) ∧
        EventImpl.rawPostWithID I [EventImpl.rawListenWithID I k rg] k into a w =
          rg (if is_void_v I.EventReturn then none else into) a w ∧
        ∀ (h : is_void_v I.EventReturn = false)
            (sf : I.Parameters → I.World σ → I.Value × I.World σ)
            (sg : I.Parameters → I.World σ → (ListenerResult × I.Value) × I.World σ),
          EventImpl.rawPostWithID I [EventImpl.sendWithIDPreset I h d k sf] k (some p) a w =
              (d, (sf a w).2.store p (sf a w).1) ∧
            EventImpl.rawPostWithID I [EventImpl.sendWithIDPreset I h d k sf] k none a w =
              (d, (sf a w).2) ∧
            EventImpl.rawPostWithID I [EventImpl.sendWithID I h k sg] k (some p) a w =
              ((sg a w).1.1, (sg a w).2.store p (sg a w).1.2) ∧
            EventImpl.rawPostWithID I [EventImpl.sendWithID I h k sg] k none a w =
              ((sg a w).1.1, (sg a w).2)) ∧
      ∀ (h : is_void_v I.EventReturn = false)
          (sf : I.Parameters → I.World σ → I.Value × I.World σ)
          (sg : I.Parameters → I.World σ → (ListenerResult × I.Value) × I.World σ),
        EventImpl.receiveWithID I h onK k' a w =
            (I.EventReturn.default_init, (w.alloc I.EventReturn.default_init).2) ∧
          EventImpl.receiveWithID I h [EventImpl.listenWithIDPreset I d k f] k a w =
            ((f a (w.alloc I.EventReturn.default_init).2).load
                (w.alloc I.EventReturn.default_init).1,
              f a (w.alloc I.EventReturn.default_init).2) ∧
          EventImpl.receiveWithID I h [EventImpl.listenWithID I k g] k a w =
            ((g a (w.alloc I.EventReturn.default_init).2).2.load
                (w.alloc I.EventReturn.default_init).1,
              (g a (w.alloc I.EventReturn.default_init).2).2) ∧
          EventImpl.receiveWithID I h [EventImpl.rawListenWithIDPreset I d k rf] k a w =
            ((rf (some (w.alloc I.EventReturn.default_init).1) a
                (w.alloc I.EventReturn.default_init).2).load
                (w.alloc I.EventReturn.default_init).1,
              rf (some (w.alloc I.EventReturn.default_init).1) a
                (w.alloc I.EventReturn.default_init).2) ∧
          EventImpl.receiveWithID I h [EventImpl.rawListenWithID I k rg] k a w =
            ((rg (some (w.alloc I.EventReturn.default_init).1) a
                (w.alloc I.EventReturn.default_init).2).2.load
                (w.alloc I.EventReturn.default_init).1,
              (rg (some (w.alloc I.EventReturn.default_init).1) a
                (w.alloc I.EventReturn.default_init).2).2) ∧
          EventImpl.receiveWithID I h [EventImpl.sendWithIDPreset I h d k sf] k a w =
            (some (sf a (w.alloc I.EventReturn.default_init).2).1,
              (sf a (w.alloc I.EventReturn.default_init).2).2.store
                (w.alloc I.EventReturn.default_init).1
                (sf a (w.alloc I.EventReturn.default_init).2).1) ∧
          EventImpl.receiveWithID I h [EventImpl.sendWithID I h k sg] k a w =
            (some (sg a (w.alloc I.EventReturn.default_init).2).1.2,
              (sg a (w.alloc I.EventReturn.default_init).2).2.store
                (w.alloc I.EventReturn.default_init).1
                (sg a (w.alloc I.EventReturn.default_init).2).1.2) := by
  have hno : ∀ ev : Event I.Parameters, ev.id = k' → ∀ l ∈ onK, l.filter ≠ ev.id := by
    intro ev hev l hl
    rw [honK l hl, hev]
    exact fun e => hk e.symm
  refine ⟨⟨?_, ?_, ?_, ?_, ?_, ?_⟩, ⟨?_, ?_, ?_⟩, ⟨?_, ?_⟩, ⟨?_, ?_, ?_, ?_⟩, ⟨?_, ?_⟩,
    ⟨?_, ?_, ?_, ?_, ?_⟩, ?_⟩
  · unfold EventImpl.listenWithIDPreset; split <;> rfl
  · unfold EventImpl.listenWithID; split <;> rfl
  · unfold EventImpl.rawListenWithIDPreset; split <;> rfl
  · unfold EventImpl.rawListenWithID; split <;> rfl
  · intro h sf; rfl
  · intro h sg; rfl
  · unfold EventImpl.postWithID
    split
    · exact ⟨Event.plain k a, rfl, rfl⟩
    · exact ⟨Event.withSlot k none a, rfl, rfl⟩
  · unfold EventImpl.rawPostWithID
    split
    · exact ⟨Event.plain k a, rfl, rfl⟩
    · exact ⟨Event.withSlot k into a, rfl, rfl⟩
  · intro h
    exact ⟨Event.withSlot k (some (w.alloc I.EventReturn.default_init).1) a, rfl, rfl, rfl⟩
  · unfold EventImpl.postWithID
    split
    · exact Event.post_of_no_listener (Event.plain k' a) onK w (hno _ rfl)
    · exact Event.post_of_no_listener (Event.withSlot k' none a) onK w (hno _ rfl)
  · unfold EventImpl.rawPostWithID
    split
    · exact Event.post_of_no_listener (Event.plain k' a) onK w (hno _ rfl)
    · exact Event.post_of_no_listener (Event.withSlot k' into a) onK w (hno _ rfl)
  · cases hv : is_void_v I.EventReturn <;>
      simp [EventImpl.postWithID, EventImpl.listenWithIDPreset, hv, Event.post_singleton,
        Listener.handle]
  · cases hv : is_void_v I.EventReturn <;>
      simp [EventImpl.postWithID, EventImpl.listenWithID, hv, Event.post_singleton,
        Listener.handle]
  · cases hv : is_void_v I.EventReturn <;>
      simp [EventImpl.postWithID, EventImpl.rawListenWithIDPreset, hv, Event.post_singleton,
        Listener.handle]
  · intro h sf
    simp [EventImpl.postWithID, EventImpl.sendWithIDPreset, h, Event.post_singleton,
      Listener.handle]
  · cases hv : is_void_v I.EventReturn <;>
      simp [EventImpl.postWithID, EventImpl.rawListenWithID, hv, Event.post_singleton,
        Listener.handle]
  · intro h sg
    simp [EventImpl.postWithID, EventImpl.sendWithID, h, Event.post_singleton,
      Listener.handle]
  · cases hv : is_void_v I.EventReturn <;>
      simp [EventImpl.rawPostWithID, EventImpl.listenWithIDPreset, hv, Event.post_singleton,
        Listener.handle]
  · cases hv : is_void_v I.EventReturn <;>
      simp [EventImpl.rawPostWithID, EventImpl.listenWithID, hv, Event.post_singleton,
        Listener.handle]
  · cases hv : is_void_v I.EventReturn <;>
      simp [EventImpl.rawPostWithID, EventImpl.rawListenWithIDPreset, hv,
        Event.post_singleton, Listener.handle]
  · cases hv : is_void_v I.EventReturn <;>
      simp [EventImpl.rawPostWithID, EventImpl.rawListenWithID, hv, Event.post_singleton,
        Listener.handle]
  · intro h sf sg
    refine ⟨?_, ?_, ?_, ?_⟩ <;>
      simp [EventImpl.rawPostWithID, EventImpl.sendWithIDPreset, EventImpl.sendWithID, h,
        Event.post_singleton, Listener.handle]
  · intro h sf sg
    refine ⟨?_, ?_, ?_, ?_, ?_, ?_, ?_⟩
    · simp only [EventImpl.receiveWithID]
      rw [Event.post_of_no_listener
        (Event.withSlot k' (some (w.alloc I.EventReturn.default_init).1) a) onK _ (hno _ rfl)]
      simp [World.alloc, World.load]
    · simp [EventImpl.receiveWithID, EventImpl.listenWithIDPreset, h, Event.post_singleton,
        Listener.handle]
    · simp [EventImpl.receiveWithID, EventImpl.listenWithID, h, Event.post_singleton,
        Listener.handle]
    · simp [EventImpl.receiveWithID, EventImpl.rawListenWithIDPreset, h,
        Event.post_singleton, Listener.handle]
    · simp [EventImpl.receiveWithID, EventImpl.rawListenWithID, h, Event.post_singleton,
        Listener.handle]
    · simp [EventImpl.receiveWithID, EventImpl.sendWithIDPreset, Event.post_singleton,
        Listener.handle, World.load, World.store]
    · simp [EventImpl.receiveWithID, EventImpl.sendWithID, Event.post_singleton,
        Listener.handle, World.load, World.store]

/-- C10, the scenario of the spec: the Identity takes `string` and has neither return type
nor key; a handler is registered with the key `"msg"`. A post on `"msg"` with `"hi"` makes
the handler observe `"hi"`; a post on `"other"` with `"hi"` does not invoke it. -/
theorem withID_uses_the_given_key_witness :
    (EventImpl.postWithID msgEvent
          [EventImpl.listenWithIDPreset msgEvent ListenerResult.Propagate "msg" observe]
          "msg" "hi" (World.empty [])).2.user = ["hi"] ∧
      (EventImpl.postWithID msgEvent
          [EventImpl.listenWithIDPreset msgEvent ListenerResult.Propagate "msg" observe]
          "other" "hi" (World.empty [])).2.user = [] := by
  have t := withID_uses_the_given_key msgEvent "msg" "other" ListenerResult.Propagate
    observe (fun a w => (ListenerResult.Propagate, observe a w))
    (fun _ a w => observe a w) (fun _ a w => (ListenerResult.Propagate, observe a w)) []
    [EventImpl.listenWithIDPreset msgEvent ListenerResult.Propagate "msg" observe]
    none 0 "hi" (World.empty [])
    (by decide) (by intro l hl; rw [List.mem_singleton] at hl; subst hl; rfl)
  rw [t.2.2.2.1.1, t.2.2.1.1]
  exact ⟨rfl, rfl⟩

/-! ## Theorems: the embedded-key operations -/

/-- C11: on an Identity with an embedded key, every embedded-key operation equals its
explicit-key counterpart applied to the embedded key `ID`: `post`, `rawPost`, `receive`,
`receiveBoth` return what `postWithID`, `rawPostWithID`, `receiveWithID`,
`receiveBothWithID` return for `ID`, and `listen`, `rawListen`, `send`, with their `On` and
global forms and both disposition policies, build the listener that the `WithID` form
builds for `ID`. -/
theorem embedded_key_is_withID_at_ID {σ Class : Type} (I : EventBuilder)
    (hk : I.EventID.isNone = false) (bus : I.Bus σ) (into : Ptr) (a : I.Parameters)
    (w : I.World σ) (d : ListenerResult) (inst : Class)
    (f : I.Parameters → I.World σ → I.World σ)
    (g : I.Parameters → I.World σ → ListenerResult × I.World σ)
    (rf : Ptr → I.Parameters → I.World σ → I.World σ)
    (rg : Ptr → I.Parameters → I.World σ → ListenerResult × I.World σ)
    (mf : Class → I.Parameters → I.World σ → I.World σ)
    (mg : Class → I.Parameters → I.World σ → ListenerResult × I.World σ)
    (mrf : Class → Ptr → I.Parameters → I.World σ → I.World σ)
    (mrg : Class → Ptr → I.Parameters → I.World σ → ListenerResult × I.World σ) :
    some (EventImpl.ID I hk) = I.ID ∧
      (EventImpl.post I hk bus a w = EventImpl.postWithID I bus (EventImpl.ID I hk) a w ∧
        EventImpl.rawPost I hk bus into a w =
          EventImpl.rawPostWithID I bus (EventImpl.ID I hk) into a w ∧
        ∀ h : is_void_v I.EventReturn = false,
          EventImpl.receive I hk h bus a w =
              EventImpl.receiveWithID I h bus (EventImpl.ID I hk) a w ∧
            EventImpl.receiveBoth I hk h bus a w =
              EventImpl.receiveBothWithID I h bus (EventImpl.ID I hk) a w) ∧
      (EventImpl.listenPreset I hk d f =
          EventImpl.listenWithIDPreset I d (EventImpl.ID I hk) f ∧
        EventImpl.listen I hk g =
          EventImpl.listenWithID I (EventImpl.ID I hk) g ∧
        EventImpl.listenOnPreset I hk d inst mf =
          EventImpl.listenWithIDOnPreset I d (EventImpl.ID I hk) inst mf ∧
        EventImpl.listenOn I hk inst mg =
          EventImpl.listenWithIDOn I (EventImpl.ID I hk) inst mg ∧
        EventImpl.globalListenPreset I hk d f =
          EventImpl.globalListenWithIDPreset I d (EventImpl.ID I hk) f ∧
        EventImpl.globalListen I hk g =
          EventImpl.globalListenWithID I (EventImpl.ID I hk) g ∧
        EventImpl.globalListenOnPreset I hk d inst mf =
          EventImpl.globalListenWithIDOnPreset I d (EventImpl.ID I hk) inst mf ∧
        EventImpl.globalListenOn I hk inst mg =
          EventImpl.globalListenWithIDOn I (EventImpl.ID I hk) inst mg ∧
        EventImpl.rawListenPreset I hk d rf =
          EventImpl.rawListenWithIDPreset I d (EventImpl.ID I hk) rf ∧
        EventImpl.rawListen I hk rg =
          EventImpl.rawListenWithID I (EventImpl.ID I hk) rg ∧
        EventImpl.rawListenOnPreset I hk d inst mrf =
          EventImpl.rawListenWithIDOnPreset I d (EventImpl.ID I hk) inst mrf ∧
        EventImpl.rawListenOn I hk inst mrg =
          EventImpl.rawListenWithIDOn I (EventImpl.ID I hk) inst mrg ∧
        EventImpl.globalRawListenPreset I hk d rf =
          EventImpl.globalRawListenWithIDPreset I d (EventImpl.ID I hk) rf ∧
        EventImpl.globalRawListen I hk rg =
          EventImpl.globalRawListenWithID I (EventImpl.ID I hk) rg ∧
        EventImpl.globalRawListenOnPreset I hk d inst mrf =
          EventImpl.globalRawListenWithIDOnPreset I d (EventImpl.ID I hk) inst mrf ∧
        EventImpl.globalRawListenOn I hk inst mrg =
          EventImpl.globalRawListenWithIDOn I (EventImpl.ID I hk) inst mrg) ∧
      ∀ (h : is_void_v I.EventReturn = false)
        (sf : I.Parameters → I.World σ → I.Value × I.World σ)
        (sg : I.Parameters → I.World σ → (ListenerResult × I.Value) × I.World σ)
        (msf : Class → I.Parameters → I.World σ → I.Value × I.World σ)
        (msg : Class → I.Parameters → I.World σ → (ListenerResult × I.Value) × I.World σ),
        EventImpl.sendPreset I hk h d sf =
          EventImpl.sendWithIDPreset I h d (EventImpl.ID I hk) sf ∧
        EventImpl.send I hk h sg =
          EventImpl.sendWithID I h (EventImpl.ID I hk) sg ∧
        EventImpl.sendOnPreset I hk h d inst msf =
          EventImpl.sendWithIDOnPreset I h d (EventImpl.ID I hk) inst msf ∧
        EventImpl.sendOn I hk h inst msg =
          EventImpl.sendWithIDOn I h (EventImpl.ID I hk) inst msg ∧
        EventImpl.globalSendPreset I hk h d sf =
          EventImpl.globalSendWithIDPreset I h d (EventImpl.ID I hk) sf ∧
        EventImpl.globalSend I hk h sg =
          EventImpl.globalSendWithID I h (EventImpl.ID I hk) sg ∧
        EventImpl.globalSendOnPreset I hk h d inst msf =
          EventImpl.globalSendWithIDOnPreset I h d (EventImpl.ID I hk) inst msf ∧
        EventImpl.globalSendOn I hk h inst msg =
          EventImpl.globalSendWithIDOn I h (EventImpl.ID I hk) inst msg := by
  refine ⟨?_, ⟨rfl, rfl, fun _ => ⟨rfl, rfl⟩⟩, ?_, ?_⟩
  · rcases I with ⟨_ | value, P, R⟩
    · cases hk
    · rfl
  · refine ⟨rfl, rfl, rfl, rfl, rfl, rfl, rfl, rfl, rfl, rfl, rfl, rfl, rfl, rfl, rfl, rfl⟩
  · intro h sf sg msf msg
    refine ⟨rfl, rfl, rfl, rfl, rfl, rfl, rfl, rfl⟩

/-- C11 on `MyEvent2` of the tests, whose embedded key is `"my-event-id"`: `receive(5)` with
a listener registered by `send<Stop>(f)` is `receiveWithID("my-event-id", 5)` with the
listener registered by `sendWithID<Stop>("my-event-id", f)`, and `post(5)` is
`postWithID("my-event-id", 5)`. -/
theorem embedded_key_is_withID_at_ID_witness :
    EventImpl.ID MyEvent2 rfl = "my-event-id" ∧
      EventImpl.post MyEvent2 rfl
          [EventImpl.sendPreset MyEvent2 rfl rfl ListenerResult.Stop double] (5 : Int)
          (World.empty ()) =
        EventImpl.postWithID MyEvent2
          [EventImpl.sendWithIDPreset MyEvent2 rfl ListenerResult.Stop "my-event-id" double]
          "my-event-id" (5 : Int) (World.empty ()) ∧
      (EventImpl.receive MyEvent2 rfl rfl
          [EventImpl.sendPreset MyEvent2 rfl rfl ListenerResult.Stop double] (5 : Int)
          (World.empty ())).1 = some (10 : Int) := by
  have t := embedded_key_is_withID_at_ID MyEvent2 rfl
    [EventImpl.sendPreset MyEvent2 rfl rfl ListenerResult.Stop double] none (5 : Int)
    (World.empty ()) ListenerResult.Stop ()
    (fun _ w => w) (fun _ w => (ListenerResult.Propagate, w))
    (fun _ _ w => w) (fun _ _ w => (ListenerResult.Propagate, w))
    (fun _ _ w => w) (fun _ _ w => (ListenerResult.Propagate, w))
    (fun _ _ _ w => w) (fun _ _ _ w => (ListenerResult.Propagate, w))
  refine ⟨rfl, ?_, ?_⟩
  · rw [t.2.1.1]
    rfl
  · rw [(t.2.1.2.2 rfl).1]
    rfl

/-! ## Theorems: posting -/

/-- C15: `post` is `rawPost` with a null Out-Slot. On every Identity `postWithID(k, a)`
submits the same bus event and returns the same as `rawPostWithID(k, nullptr, a)`; on an
Identity without return type, `rawPostWithID(k, p, a)` ignores `p` and equals
`postWithID(k, a)`. -/
theorem post_is_rawPost_with_null {σ : Type} (I : EventBuilder) (bus : I.Bus σ) (k : String)
    (a : I.Parameters) (w : I.World σ) (K : Option String) (P : List CppType) (p : Ptr)
    (busV : EventBuilder.Bus (EventBuilder.mk K P CppType.void) σ)
    (aV : EventBuilder.Parameters (EventBuilder.mk K P CppType.void))
    (wV : EventBuilder.World (EventBuilder.mk K P CppType.void) σ) :
    EventImpl.postWithID I bus k a w = EventImpl.rawPostWithID I bus k none a w ∧
      (∃ ev : Event I.Parameters,
        ev.id = k ∧ EventImpl.postWithID I bus k a w = ev.post bus w ∧
          EventImpl.rawPostWithID I bus k none a w = ev.post bus w) ∧
      EventImpl.rawPostWithID (EventBuilder.mk K P CppType.void) busV k p aV wV =
        EventImpl.postWithID (EventBuilder.mk K P CppType.void) busV k aV wV ∧
      EventImpl.rawPostWithID (EventBuilder.mk K P CppType.void) busV k p aV wV =
        (Event.plain k aV).post busV wV := by
  refine ⟨rfl, ?_, rfl, rfl⟩
  unfold EventImpl.postWithID EventImpl.rawPostWithID
  split
  · exact ⟨Event.plain k a, rfl, rfl, rfl⟩
  · exact ⟨Event.withSlot k none a, rfl, rfl, rfl⟩

/-- C16: on an Identity with a return type, `receiveBothWithID(k, a)` performs exactly one
post on `k`, the one `rawPostWithID` performs for a fresh Out-Slot (a new default-initialised
local at an unused address, everything else as before), and returns the disposition of
that post with the content of the Out-Slot after it; `receiveWithID(k, a)` returns the second
component of that pair and leaves the same world. -/
theorem receiveBoth_is_one_post {σ : Type} (I : EventBuilder)
    (h : is_void_v I.EventReturn = false) (bus : I.Bus σ) (k : String) (a : I.Parameters)
    (w : I.World σ) :
    EventImpl.receiveBothWithID I h bus k a w =
        (((EventImpl.rawPostWithID I bus k (some (w.alloc I.EventReturn.default_init).1) a
              (w.alloc I.EventReturn.default_init).2).1,
            (EventImpl.rawPostWithID I bus k (some (w.alloc I.EventReturn.default_init).1) a
              (w.alloc I.EventReturn.default_init).2).2.load
              (w.alloc I.EventReturn.default_init).1),
          (EventImpl.rawPostWithID I bus k (some (w.alloc I.EventReturn.default_init).1) a
            (w.alloc I.EventReturn.default_init).2).2) ∧
      EventImpl.receiveWithID I h bus k a w =
        ((EventImpl.receiveBothWithID I h bus k a w).1.2,
          (EventImpl.receiveBothWithID I h bus k a w).2) ∧
      ((w.alloc I.EventReturn.default_init).1 = w.next ∧
        (w.alloc I.EventReturn.default_init).2.load (w.alloc I.EventReturn.default_init).1 =
          I.EventReturn.default_init ∧
        (∀ q : Addr, q ≠ (w.alloc I.EventReturn.default_init).1 →
          (w.alloc I.EventReturn.default_init).2.load q = w.load q) ∧
        (w.alloc I.EventReturn.default_init).2.next = w.next + 1 ∧
        (w.alloc I.EventReturn.default_init).2.stores = w.stores ∧
        (w.alloc I.EventReturn.default_init).2.user = w.user) := by
  refine ⟨?_, rfl, rfl, ?_, ?_, rfl, rfl, rfl⟩
  · simp only [EventImpl.receiveBothWithID, EventImpl.rawPostWithID, h]
    rfl
  · simp [World.alloc, World.load]
  · intro q hq
    simp only [World.alloc] at hq
    simp [World.alloc, World.load, Function.update_noteq hq]

/-- C16 on the round-trip scenario: receiving both on `"evt"` with `5` is the raw post with
the address `0` of the new local, and yields `(Stop, 10)`. -/
theorem receiveBoth_is_one_post_witness :
    (EventImpl.receiveBothWithID evt rfl
        [EventImpl.sendWithIDPreset evt rfl ListenerResult.Stop "evt" double] "evt" (5 : Int)
        (World.empty ())).1 =
      ((EventImpl.rawPostWithID evt
          [EventImpl.sendWithIDPreset evt rfl ListenerResult.Stop "evt" double] "evt" (some 0)
          (5 : Int) ((World.empty ()).alloc none).2).1, some (10 : Int)) ∧
      (EventImpl.receiveBothWithID evt rfl
        [EventImpl.sendWithIDPreset evt rfl ListenerResult.Stop "evt" double] "evt" (5 : Int)
        (World.empty ())).1 = (ListenerResult.Stop, some (10 : Int)) := by
  have t := receiveBoth_is_one_post evt rfl
    [EventImpl.sendWithIDPreset evt rfl ListenerResult.Stop "evt" double] "evt" (5 : Int)
    (World.empty ())
  rw [t.1]
  exact ⟨rfl, rfl⟩

/-! ## Theorems: the callbacks of the listeners -/

/-- C12: fixed-disposition listeners. For every constant disposition `d`, Out-Slot pointer
and arguments `a`, the callback built by `listenWithID<d>`, `rawListenWithID<d>` and
`sendWithID<d>` runs the handler exactly once on `a` (the raw handler on the pointer and
`a`, the pointer being `nullptr` on an Identity without return type) and returns `d`,
whatever the handler does or returns; for `sendWithID<d>` the value of the handler is
assigned to the Out-Slot when one is present, and nothing is assigned when none is. -/
theorem fixed_disposition_listeners {σ : Type} (I : EventBuilder) (d : ListenerResult)
    (k : String) (into : Ptr) (p : Addr) (a : I.Parameters) (w : I.World σ)
    (f : I.Parameters → I.World σ → I.World σ)
    (rf : Ptr → I.Parameters → I.World σ → I.World σ) :
    (EventImpl.listenWithIDPreset I d k f).callback.invoke into a w = (d, f a w) ∧
      (EventImpl.rawListenWithIDPreset I d k rf).callback.invoke into a w =
        (d, rf (if is_void_v I.EventReturn then none else into) a w) ∧
      ∀ (h : is_void_v I.EventReturn = false)
        (sf : I.Parameters → I.World σ → I.Value × I.World σ),
        (EventImpl.sendWithIDPreset I h d k sf).callback.invoke (some p) a w =
            (d, (sf a w).2.store p (sf a w).1) ∧
          ((EventImpl.sendWithIDPreset I h d k sf).callback.invoke (some p) a w).2.load p =
            some (sf a w).1 ∧
          (EventImpl.sendWithIDPreset I h d k sf).callback.invoke none a w =
            (d, (sf a w).2) := by
  refine ⟨?_, ?_, ?_⟩
  · unfold EventImpl.listenWithIDPreset
    split <;> rfl
  · unfold EventImpl.rawListenWithIDPreset
    split <;> rfl
  · intro h sf
    refine ⟨rfl, ?_, rfl⟩
    simp [EventImpl.sendWithIDPreset, Callback.invoke, World.store, World.load]

/-- C13: handler-decided-disposition listeners. The callback built by `listenWithID(k, f)`
returns exactly the disposition `f(a)` (and leaves the world `f` leaves); the callback
built by `sendWithID(k, f)`, where `f(a) = (d, v)`, returns `d` to the bus and, when the
Out-Slot is present, stores `v` in it. -/
theorem handler_decided_listeners {σ : Type} (I : EventBuilder) (k : String) (into : Ptr)
    (p : Addr) (a : I.Parameters) (w : I.World σ)
    (g : I.Parameters → I.World σ → ListenerResult × I.World σ) :
    (EventImpl.listenWithID I k g).callback.invoke into a w = g a w ∧
      ((EventImpl.listenWithID I k g).callback.invoke into a w).1 = (g a w).1 ∧
      ∀ (h : is_void_v I.EventReturn = false)
        (sg : I.Parameters → I.World σ → (ListenerResult × I.Value) × I.World σ),
        ((EventImpl.sendWithID I h k sg).callback.invoke into a w).1 = (sg a w).1.1 ∧
          (EventImpl.sendWithID I h k sg).callback.invoke (some p) a w =
            ((sg a w).1.1, (sg a w).2.store p (sg a w).1.2) ∧
          ((EventImpl.sendWithID I h k sg).callback.invoke (some p) a w).2.load p =
            some (sg a w).1.2 ∧
          (EventImpl.sendWithID I h k sg).callback.invoke none a w =
            ((sg a w).1.1, (sg a w).2) := by
  have hl : (EventImpl.listenWithID I k g).callback.invoke into a w = g a w := by
    unfold EventImpl.listenWithID
    split <;> rfl
  refine ⟨hl, by rw [hl], ?_⟩
  intro h sg
  refine ⟨?_, rfl, ?_, rfl⟩
  · cases into <;> rfl
  · simp [EventImpl.sendWithID, Callback.invoke, World.store, World.load]

/-- C14: sending listeners treat the Out-Slot as optional. For the callbacks built by
`sendWithID` and `sendWithIDOn`, with fixed or handler-decided disposition: when the
Out-Slot pointer is non-null the slot holds the value of the handler afterwards; when it is
null the handler is still run exactly once, its value is discarded and nothing is written
(the world is the one the handler leaves), and the disposition is the one returned in the
non-null case. -/
theorem sending_treats_slot_as_optional {σ Class : Type} (I : EventBuilder)
    (h : is_void_v I.EventReturn = false) (d : ListenerResult) (k : String) (p : Addr)
    (a : I.Parameters) (w : I.World σ) (inst : Class)
    (sf : I.Parameters → I.World σ → I.Value × I.World σ)
    (sg : I.Parameters → I.World σ → (ListenerResult × I.Value) × I.World σ)
    (msf : Class → I.Parameters → I.World σ → I.Value × I.World σ)
    (msg : Class → I.Parameters → I.World σ → (ListenerResult × I.Value) × I.World σ) :
    (((EventImpl.sendWithIDPreset I h d k sf).callback.invoke (some p) a w).2.load p =
          some (sf a w).1 ∧
        ((EventImpl.sendWithIDPreset I h d k sf).callback.invoke none a w).2 = (sf a w).2 ∧
        ((EventImpl.sendWithIDPreset I h d k sf).callback.invoke none a w).1 =
          ((EventImpl.sendWithIDPreset I h d k sf).callback.invoke (some p) a w).1) ∧
      (((EventImpl.sendWithID I h k sg).callback.invoke (some p) a w).2.load p =
          some (sg a w).1.2 ∧
        ((EventImpl.sendWithID I h k sg).callback.invoke none a w).2 = (sg a w).2 ∧
        ((EventImpl.sendWithID I h k sg).callback.invoke none a w).1 =
          ((EventImpl.sendWithID I h k sg).callback.invoke (some p) a w).1) ∧
      (((EventImpl.sendWithIDOnPreset I h d k inst msf).callback.invoke (some p) a w).2.load
            p = some (msf inst a w).1 ∧
        ((EventImpl.sendWithIDOnPreset I h d k inst msf).callback.invoke none a w).2 =
          (msf inst a w).2 ∧
        ((EventImpl.sendWithIDOnPreset I h d k inst msf).callback.invoke none a w).1 =
          ((EventImpl.sendWithIDOnPreset I h d k inst msf).callback.invoke (some p) a w).1) ∧
      (((EventImpl.sendWithIDOn I h k inst msg).callback.invoke (some p) a w).2.load p =
          some (msg inst a w).1.2 ∧
        ((EventImpl.sendWithIDOn I h k inst msg).callback.invoke none a w).2 =
          (msg inst a w).2 ∧
        ((EventImpl.sendWithIDOn I h k inst msg).callback.invoke none a w).1 =
          ((EventImpl.sendWithIDOn I h k inst msg).callback.invoke (some p) a w).1) := by
  refine ⟨⟨?_, rfl, rfl⟩, ⟨?_, rfl, rfl⟩, ⟨?_, rfl, rfl⟩, ⟨?_, rfl, rfl⟩⟩
  · simp [EventImpl.sendWithIDPreset, Callback.invoke, World.store, World.load]
  · simp [EventImpl.sendWithID, Callback.invoke, World.store, World.load]
  · simp [EventImpl.sendWithIDOnPreset, Callback.invoke, World.store, World.load]
  · simp [EventImpl.sendWithIDOn, Callback.invoke, World.store, World.load]

/-- C14 on the round-trip scenario, with the handler `f(x) = x * 2` and the arguments `5`:
with the Out-Slot at address `0` the slot holds `10` afterwards; with a null Out-Slot
nothing is stored and the disposition is `Stop` as well. -/
theorem sending_treats_slot_as_optional_witness :
    ((EventImpl.sendWithIDPreset evt rfl ListenerResult.Stop "evt" double).callback.invoke
          (some 0) (5 : Int) (World.empty ())).2.load 0 = some (10 : Int) ∧
      ((EventImpl.sendWithIDPreset evt rfl ListenerResult.Stop "evt" double).callback.invoke
          none (5 : Int) (World.empty ())).2.stores = [] ∧
      ((EventImpl.sendWithIDPreset evt rfl ListenerResult.Stop "evt" double).callback.invoke
          none (5 : Int) (World.empty ())).1 = ListenerResult.Stop := by
  have t := sending_treats_slot_as_optional evt rfl ListenerResult.Stop "evt" 0 (5 : Int)
    (World.empty ()) () double
    (fun (x : Int) (w : World Int Unit) => ((ListenerResult.Stop, x * 2), w))
    (fun (_ : Unit) (x : Int) (w : World Int Unit) => (x * 2, w))
    (fun (_ : Unit) (x : Int) (w : World Int Unit) => ((ListenerResult.Stop, x * 2), w))
  refine ⟨t.1.1, ?_, ?_⟩
  · rw [t.1.2.1]
    rfl
  · rw [t.1.2.2]
    rfl

/-- C20: raw listeners receive the Out-Slot reference as their first parameter; the handler
type takes `EventReturnPointer` first. On an Identity with a return type
`EventReturnPointer` is `EventReturn*` and the callback built by `rawListenWithID` calls the
handler with exactly the pointer the poster passed: `rawPostWithID(k, p, a)` makes it see
`(p, a)`, a plain post makes it see a null pointer. On an Identity without return type
`EventReturnPointer` is `std::nullptr_t`, and the handler is always called with `nullptr`
followed by the posted arguments. -/
theorem raw_listener_sees_the_slot_pointer {σ : Type} (I : EventBuilder)
    (h : is_void_v I.EventReturn = false) (d : ListenerResult) (k : String) (p : Ptr)
    (a : I.Parameters) (w : I.World σ)
    (rf : Ptr → I.Parameters → I.World σ → I.World σ)
    (rg : Ptr → I.Parameters → I.World σ → ListenerResult × I.World σ)
    (K : Option String) (P : List CppType)
    (aV : EventBuilder.Parameters (EventBuilder.mk K P CppType.void))
    (wV : EventBuilder.World (EventBuilder.mk K P CppType.void) σ)
    (rfV : Ptr → EventBuilder.Parameters (EventBuilder.mk K P CppType.void) →
      EventBuilder.World (EventBuilder.mk K P CppType.void) σ →
      EventBuilder.World (EventBuilder.mk K P CppType.void) σ)
    (rgV : Ptr → EventBuilder.Parameters (EventBuilder.mk K P CppType.void) →
      EventBuilder.World (EventBuilder.mk K P CppType.void) σ →
      ListenerResult × EventBuilder.World (EventBuilder.mk K P CppType.void) σ) :
    (BaseParameters I Shape.rawListen = I.EventReturnPointer :: I.EventParameters ∧
        I.EventReturnPointer = CppType.ptr I.EventReturn ∧
        (EventBuilder.mk K P CppType.void).EventReturnPointer = CppType.nullptr_t ∧
        BaseParameters (EventBuilder.mk K P CppType.void) Shape.rawListen =
          CppType.nullptr_t :: P) ∧
      ((EventImpl.rawListenWithID I k rg).callback.invoke p a w = rg p a w ∧
        (EventImpl.rawListenWithIDPreset I d k rf).callback.invoke p a w = (d, rf p a w) ∧
        EventImpl.rawPostWithID I [EventImpl.rawListenWithID I k rg] k p a w = rg p a w ∧
        EventImpl.rawPostWithID I [EventImpl.rawListenWithIDPreset I d k rf] k p a w =
          (d, rf p a w) ∧
        EventImpl.postWithID I [EventImpl.rawListenWithID I k rg] k a w = rg none a w ∧
        EventImpl.postWithID I [EventImpl.rawListenWithIDPreset I d k rf] k a w =
          (d, rf none a w)) ∧
      ((EventImpl.rawListenWithID (EventBuilder.mk K P CppType.void) k rgV).callback.invoke
          p aV wV = rgV none aV wV ∧
        (EventImpl.rawListenWithIDPreset (EventBuilder.mk K P CppType.void) d k
          rfV).callback.invoke p aV wV = (d, rfV none aV wV) ∧
        EventImpl.rawPostWithID (EventBuilder.mk K P CppType.void)
          [EventImpl.rawListenWithID (EventBuilder.mk K P CppType.void) k rgV] k p aV wV =
          rgV none aV wV ∧
        EventImpl.postWithID (EventBuilder.mk K P CppType.void)
          [EventImpl.rawListenWithIDPreset (EventBuilder.mk K P CppType.void) d k rfV] k
          aV wV = (d, rfV none aV wV)) := by
  refine ⟨⟨rfl, ?_, rfl, rfl⟩, ⟨?_, ?_, ?_, ?_, ?_, ?_⟩, ⟨rfl, rfl, ?_, ?_⟩⟩
  · simp [EventBuilder.EventReturnPointer, h]
  · simp [EventImpl.rawListenWithID, h, Callback.invoke]
  · simp [EventImpl.rawListenWithIDPreset, h, Callback.invoke]
  · simp only [EventImpl.rawPostWithID, h, Event.post_singleton]
    simp [EventImpl.rawListenWithID, h, Listener.handle]
  · simp only [EventImpl.rawPostWithID, h, Event.post_singleton]
    simp [EventImpl.rawListenWithIDPreset, h, Listener.handle]
  · simp only [EventImpl.postWithID, h, Event.post_singleton]
    simp [EventImpl.rawListenWithID, h, Listener.handle]
  · simp only [EventImpl.postWithID, h, Event.post_singleton]
    simp [EventImpl.rawListenWithIDPreset, h, Listener.handle]
  · simp only [EventImpl.rawPostWithID, is_void_v, Event.post_singleton]
    simp [EventImpl.rawListenWithID, is_void_v, Listener.handle]
  · simp only [EventImpl.postWithID, is_void_v, Event.post_singleton]
    simp [EventImpl.rawListenWithIDPreset, is_void_v, Listener.handle]

/-- C20 on the Identities of the tests, with a raw handler that records what it is called
with: on `MyEvent2` a raw post with the pointer `3` and `5` makes it see `(3, 5)` and a
plain post makes it see `(nullptr, 5)`; on `MyEvent1` it sees `(nullptr, 5)`. -/
theorem raw_listener_sees_the_slot_pointer_witness :
    (EventImpl.rawPostWithID MyEvent2
          [EventImpl.rawListenWithIDPreset MyEvent2 ListenerResult.Propagate "my-event-id"
            observeRaw]
          "my-event-id" (some 3) (5 : Int) (World.empty [])).2.user = [(some 3, (5 : Int))] ∧
      (EventImpl.postWithID MyEvent2
          [EventImpl.rawListenWithIDPreset MyEvent2 ListenerResult.Propagate "my-event-id"
            observeRaw]
          "my-event-id" (5 : Int) (World.empty [])).2.user = [(none, (5 : Int))] ∧
      (EventImpl.postWithID MyEvent1
          [EventImpl.rawListenWithIDPreset MyEvent1 ListenerResult.Propagate "my-event-id"
            observeRaw]
          "my-event-id" (5 : Int) (World.empty [])).2.user = [(none, (5 : Int))] := by
  have t := raw_listener_sees_the_slot_pointer MyEvent2 rfl ListenerResult.Propagate
    "my-event-id" (some 3) (5 : Int) (World.empty []) observeRaw
    (fun q x w => (ListenerResult.Propagate, observeRaw q x w))
    (some "my-event-id") [CppType.int] (5 : Int) (World.empty []) observeRaw
    (fun q x w => (ListenerResult.Propagate, observeRaw q x w))
  refine ⟨?_, ?_, ?_⟩
  · rw [t.2.1.2.2.2.1]
    rfl
  · rw [t.2.1.2.2.2.2.2]
    rfl
  · exact congrArg (fun r => r.2.user) t.2.2.2.2.2

/-! ## Theorems: writers of the Out-Slot -/

/-- C17, as stated, fails for two sending listeners with disposition `Propagate` on the
round-trip Identity: during one raw post that carries the Out-Slot at address `0` both of
them assign the slot (the record of assignments holds the address twice), first `1` and
then `10`, and receiving yields the value of the second. -/
theorem two_propagating_senders_both_write :
    (EventImpl.rawPostWithID evt
          [EventImpl.sendWithIDPreset evt rfl ListenerResult.Propagate "evt" one,
            EventImpl.sendWithIDPreset evt rfl ListenerResult.Propagate "evt" double]
          "evt" (some 0) (5 : Int) ((World.empty ()).alloc none).2).2.stores = [0, 0] ∧
      ((EventImpl.sendWithIDPreset evt rfl ListenerResult.Propagate "evt" one).handle
          (Event.withSlot "evt" (some 0) (5 : Int)) ((World.empty ()).alloc none).2).2.load 0 =
        some (1 : Int) ∧
      (EventImpl.rawPostWithID evt
          [EventImpl.sendWithIDPreset evt rfl ListenerResult.Propagate "evt" one,
            EventImpl.sendWithIDPreset evt rfl ListenerResult.Propagate "evt" double]
          "evt" (some 0) (5 : Int) ((World.empty ()).alloc none).2).2.load 0 =
        some (10 : Int) ∧
      (EventImpl.receiveWithID evt rfl
          [EventImpl.sendWithIDPreset evt rfl ListenerResult.Propagate "evt" one,
            EventImpl.sendWithIDPreset evt rfl ListenerResult.Propagate "evt" double]
          "evt" (5 : Int) (World.empty ())).1 = some (10 : Int) := by
  exact ⟨rfl, rfl, rfl, rfl⟩

/-- What each registration does when its listener meets an event on its key that carries
the Out-Slot pointer `some p`. -/
theorem Registration.handle_toListener {σ : Type} (I : EventBuilder)
    (h : is_void_v I.EventReturn = false) (k : String) (p : Addr) (a : I.Parameters)
    (w : I.World σ) (r : Registration I σ) :
    (r.toListener I h k).handle (Event.withSlot k (some p) a) w =
      match r with
      | Registration.listenPreset d f => (d, f a w)
      | Registration.listen g => g a w
      | Registration.sendPreset d sf => (d, (sf a w).2.store p (sf a w).1)
      | Registration.send sg => ((sg a w).1.1, (sg a w).2.store p (sg a w).1.2) := by
  cases r with
  | listenPreset d f =>
    simp [Registration.toListener, EventImpl.listenWithIDPreset, h, Listener.handle]
  | listen g => simp [Registration.toListener, EventImpl.listenWithID, h, Listener.handle]
  | sendPreset d sf =>
    simp [Registration.toListener, EventImpl.sendWithIDPreset, Listener.handle]
  | send sg => simp [Registration.toListener, EventImpl.sendWithID, Listener.handle]

/-- The record of assignments after one registration has met the event: the sending ones
add the posted address, the plain ones nothing. -/
theorem Registration.stores_after_handle {σ : Type} (I : EventBuilder)
    (h : is_void_v I.EventReturn = false) (k : String) (p : Addr) (a : I.Parameters)
    (w : I.World σ) (r : Registration I σ) (hkeep : r.keepsStores) :
    ((r.toListener I h k).handle (Event.withSlot k (some p) a) w).2.stores =
      List.replicate (if r.isSending then 1 else 0) p ++ w.stores := by
  rw [Registration.handle_toListener]
  cases r with
  | listenPreset d f => simpa [Registration.isSending] using hkeep a w
  | listen g => simpa [Registration.isSending] using hkeep a w
  | sendPreset d sf => simpa [Registration.isSending, World.store] using hkeep a w
  | send sg => simpa [Registration.isSending, World.store] using hkeep a w

/-- During a post that carries an Out-Slot, the assignments made are one to the posted slot
for each sending listener invoked. -/
theorem Registration.stores_after_post {σ : Type} (I : EventBuilder)
    (h : is_void_v I.EventReturn = false) (k : String) (p : Addr) (a : I.Parameters)
    (regs : List (Registration I σ)) (hkeep : ∀ r ∈ regs, r.keepsStores) (w : I.World σ) :
    ((Event.withSlot k (some p) a).post (regs.map (Registration.toListener I h k)) w).2.stores =
      List.replicate (Registration.sendersInvoked I h k (some p) a regs w) p ++ w.stores := by
  induction regs generalizing w with
  | nil => rfl
  | cons r rest ih =>
    have hr := Registration.stores_after_handle I h k p a w r
      (hkeep r (List.mem_cons_self r rest))
    have ih' := fun w1 => ih (fun m hm => hkeep m (List.mem_cons_of_mem r hm)) w1
    simp only [List.map_cons, Event.post, Registration.sendersInvoked]
    rcases hh : (r.toListener I h k).handle (Event.withSlot k (some p) a) w with ⟨d, w1⟩
    rw [hh] at hr
    cases d
    · simp only [ih' w1]
      rw [show w1.stores = List.replicate (if r.isSending then 1 else 0) p ++ w.stores from hr,
        ← List.append_assoc, ← List.replicate_add]
    · simpa using hr

/-- No more sending listeners are invoked than are registered. -/
theorem Registration.sendersInvoked_le_length {σ : Type} (I : EventBuilder)
    (h : is_void_v I.EventReturn = false) (k : String) (into : Ptr) (a : I.Parameters)
    (regs : List (Registration I σ)) (w : I.World σ) :
    Registration.sendersInvoked I h k into a regs w ≤
      (regs.filter Registration.isSending).length := by
  induction regs generalizing w with
  | nil => exact Nat.le_refl 0
  | cons r rest ih =>
    simp only [Registration.sendersInvoked]
    rcases (r.toListener I h k).handle (Event.withSlot k into a) w with ⟨d, w1⟩
    have ih1 := ih w1
    cases hs : r.isSending <;> cases d <;> simp [List.filter, hs] <;> omega

/-- When every sending listener returns `Stop`, at most one is invoked. -/
theorem Registration.sendersInvoked_le_one {σ : Type} (I : EventBuilder)
    (h : is_void_v I.EventReturn = false) (k : String) (p : Addr) (a : I.Parameters)
    (regs : List (Registration I σ)) (hstop : ∀ r ∈ regs, r.sendsStop) (w : I.World σ) :
    Registration.sendersInvoked I h k (some p) a regs w ≤ 1 := by
  induction regs generalizing w with
  | nil => exact Nat.zero_le 1
  | cons r rest ih =>
    have hs := hstop r (List.mem_cons_self r rest)
    have ih' := fun w1 => ih (fun m hm => hstop m (List.mem_cons_of_mem r hm)) w1
    simp only [Registration.sendersInvoked, Registration.handle_toListener]
    cases r with
    | listenPreset d f =>
      cases d
      · simpa [Registration.isSending] using ih' (f a w)
      · simp [Registration.isSending]
    | listen g =>
      rcases hg : g a w with ⟨d, w1⟩
      cases d
      · simpa [Registration.isSending, hg] using ih' w1
      · simp [Registration.isSending, hg]
    | sendPreset d sf =>
      have hd : d = ListenerResult.Stop := hs
      subst hd
      simp [Registration.isSending]
    | send sg =>
      have hd : (sg a w).1.1 = ListenerResult.Stop := hs a w
      simp [Registration.isSending, hd]

/-- C17, amended: for the plain and the sending listeners registered on a key through this
layer, whose handlers are never given the Out-Slot and make no assignment to it themselves,
during a post that carries an Out-Slot the listeners that write into it are exactly the
sending listeners the bus invokes, each writing once. Hence at most one registered listener
writes whenever at most one sending listener is invoked: in particular when at most one
sending listener is registered on the key (whatever its disposition), and when every
sending listener returns `Stop`. -/
theorem writers_are_the_invoked_senders {σ : Type} (I : EventBuilder)
    (h : is_void_v I.EventReturn = false) (k : String) (p : Addr) (a : I.Parameters)
    (regs : List (Registration I σ)) (hkeep : ∀ r ∈ regs, r.keepsStores) (w : I.World σ) :
    (EventImpl.rawPostWithID I (regs.map (Registration.toListener I h k)) k (some p) a
          w).2.stores =
        List.replicate (Registration.sendersInvoked I h k (some p) a regs w) p ++ w.stores ∧
      Registration.sendersInvoked I h k (some p) a regs w ≤
        (regs.filter Registration.isSending).length ∧
      (Registration.sendersInvoked I h k (some p) a regs w ≤ 1 →
        (EventImpl.rawPostWithID I (regs.map (Registration.toListener I h k)) k (some p) a
            w).2.stores = w.stores ∨
          (EventImpl.rawPostWithID I (regs.map (Registration.toListener I h k)) k (some p) a
            w).2.stores = p :: w.stores) ∧
      ((regs.filter Registration.isSending).length ≤ 1 →
        (EventImpl.rawPostWithID I (regs.map (Registration.toListener I h k)) k (some p) a
            w).2.stores = w.stores ∨
          (EventImpl.rawPostWithID I (regs.map (Registration.toListener I h k)) k (some p) a
            w).2.stores = p :: w.stores) ∧
      ((∀ r ∈ regs, r.sendsStop) →
        (EventImpl.rawPostWithID I (regs.map (Registration.toListener I h k)) k (some p) a
            w).2.stores = w.stores ∨
          (EventImpl.rawPostWithID I (regs.map (Registration.toListener I h k)) k (some p) a
            w).2.stores = p :: w.stores) := by
  have hs :
      (EventImpl.rawPostWithID I (regs.map (Registration.toListener I h k)) k (some p) a
          w).2.stores =
        List.replicate (Registration.sendersInvoked I h k (some p) a regs w) p ++
          w.stores := by
    simp only [EventImpl.rawPostWithID, h]
    exact Registration.stores_after_post I h k p a regs hkeep w
  have hle := Registration.sendersInvoked_le_length I h k (some p) a regs w
  have hone : Registration.sendersInvoked I h k (some p) a regs w ≤ 1 →
      (EventImpl.rawPostWithID I (regs.map (Registration.toListener I h k)) k (some p) a
          w).2.stores = w.stores ∨
        (EventImpl.rawPostWithID I (regs.map (Registration.toListener I h k)) k (some p) a
          w).2.stores = p :: w.stores := by
    intro hn
    rw [hs]
    rcases Nat.le_one_iff_eq_zero_or_eq_one.1 hn with h0 | h1
    · exact Or.inl (by rw [h0]; rfl)
    · exact Or.inr (by rw [h1]; rfl)
  exact ⟨hs, hle, hone, fun hl => hone (Nat.le_trans hle hl),
    fun hstop => hone (Registration.sendersInvoked_le_one I h k p a regs hstop w)⟩

/-- C17, amended, on the round-trip Identity: between two plain listeners, one sending
listener with disposition `Propagate`, as the tests register; during a raw post with the
Out-Slot at address `0` one assignment is made, to that slot, which then holds `10`. -/
theorem writers_are_the_invoked_senders_witness :
    (EventImpl.rawPostWithID evt
          ([Registration.listenPreset ListenerResult.Propagate (fun _ w => w),
            Registration.sendPreset ListenerResult.Propagate double,
            Registration.listenPreset ListenerResult.Propagate (fun _ w => w)].map
              (Registration.toListener evt rfl "evt"))
          "evt" (some 0) (5 : Int) ((World.empty ()).alloc none).2).2.stores = [0] ∧
      (EventImpl.rawPostWithID evt
          ([Registration.listenPreset ListenerResult.Propagate (fun _ w => w),
            Registration.sendPreset ListenerResult.Propagate double,
            Registration.listenPreset ListenerResult.Propagate (fun _ w => w)].map
              (Registration.toListener evt rfl "evt"))
          "evt" (some 0) (5 : Int) ((World.empty ()).alloc none).2).2.load 0 =
        some (10 : Int) := by
  have t := writers_are_the_invoked_senders evt rfl "evt" 0 (5 : Int)
    [Registration.listenPreset ListenerResult.Propagate (fun _ w => w),
      Registration.sendPreset ListenerResult.Propagate double,
      Registration.listenPreset ListenerResult.Propagate (fun _ w => w)]
    (by
      intro r hr
      simp only [List.mem_cons, List.mem_singleton, List.not_mem_nil, or_false] at hr
      rcases hr with rfl | rfl | rfl <;> intro a w <;> rfl)
    ((World.empty ()).alloc none).2
  refine ⟨?_, rfl⟩
  rcases t.2.2.2.1 (by decide) with t0 | t1
  · exact absurd t0 (by decide)
  · exact t1

/-! ## Theorems: what the bus sees of an Identity, and the validators -/

/-- The trait `std::is_void_v` holds of `void` alone. -/
theorem is_void_v_eq_true_iff (t : CppType) : is_void_v t = true ↔ t = CppType.void := by
  cases t <;> simp [is_void_v]

/-- The constant `ID` of an Identity is its `EventID`. -/
theorem EventBuilder.ID_eq (I : EventBuilder) : I.ID = I.EventID := by
  rcases I with ⟨_ | value, P, R⟩ <;> rfl

/-- C18, as stated, fails on two Identities with the key `"my-event-id"`: `pointerFirst`
takes `int*, int` and has no return type, `MyEvent2` takes `int` and returns `int`. Their
triples differ, yet they present the same key string and the same Filter wire shape
`int*, int` to the bus. -/
theorem different_identities_same_wire_shape :
    pointerFirst ≠ MyEvent2 ∧
      (pointerFirst.EventID, pointerFirst.EventParameters, pointerFirst.EventReturn) ≠
        (MyEvent2.EventID, MyEvent2.EventParameters, MyEvent2.EventReturn) ∧
      EventImpl.Filter pointerFirst = [CppType.ptr CppType.int, CppType.int] ∧
      EventImpl.Filter MyEvent2 = [CppType.ptr CppType.int, CppType.int] ∧
      (pointerFirst.ID, EventImpl.Filter pointerFirst) =
        (MyEvent2.ID, EventImpl.Filter MyEvent2) := by
  decide

/-- C18, amended: two Identities are equal exactly when their (key, parameters, return
type) triples are; the wire shape of an Identity is its parameter list when the return type
is absent and the parameter list prefixed by pointer-to-return-type when it is present;
Identities with different triples present a different (key string, wire shape) pair to the
bus except in one case, where they present the same pair: an Identity without return type
whose parameter list is `R*` followed by `P`, and the Identity with the same key, the
parameter list `P` and the return type `R`. -/
theorem wire_shape_identifies_up_to_pointer_first (I J : EventBuilder) :
    ((I.EventID, I.EventParameters, I.EventReturn) =
          (J.EventID, J.EventParameters, J.EventReturn) ↔ I = J) ∧
      EventImpl.Filter I =
        (if is_void_v I.EventReturn then I.EventParameters
          else CppType.ptr I.EventReturn :: I.EventParameters) ∧
      ((I.ID, EventImpl.Filter I) = (J.ID, EventImpl.Filter J) ↔
        I = J ∨
          (I.EventID = J.EventID ∧ is_void_v I.EventReturn = true ∧
            is_void_v J.EventReturn = false ∧
            I.EventParameters = CppType.ptr J.EventReturn :: J.EventParameters) ∨
          (I.EventID = J.EventID ∧ is_void_v J.EventReturn = true ∧
            is_void_v I.EventReturn = false ∧
            J.EventParameters = CppType.ptr I.EventReturn :: I.EventParameters)) := by
  refine ⟨?_, rfl, ?_⟩
  · rcases I with ⟨K, P, R⟩
    rcases J with ⟨K', P', R'⟩
    simp
  · rw [EventBuilder.ID_eq, EventBuilder.ID_eq]
    rcases I with ⟨K, P, R⟩
    rcases J with ⟨K', P', R'⟩
    cases hR : is_void_v R <;> cases hR' : is_void_v R'
    · simp [EventImpl.Filter, hR, hR']
      intro _
      exact And.comm
    · have hv' : R' = CppType.void := (is_void_v_eq_true_iff R').1 hR'
      subst hv'
      have hne : R ≠ CppType.void := fun e => by
        rw [e] at hR
        exact absurd hR (by decide)
      simp [EventImpl.Filter, hR, is_void_v, hne]
      intro _
      exact eq_comm
    · have hv : R = CppType.void := (is_void_v_eq_true_iff R).1 hR
      subst hv
      have hne : R' ≠ CppType.void := fun e => by
        rw [e] at hR'
        exact absurd hR' (by decide)
      simp [EventImpl.Filter, hR', is_void_v, hne.symm]
    · have hv : R = CppType.void := (is_void_v_eq_true_iff R).1 hR
      have hv' : R' = CppType.void := (is_void_v_eq_true_iff R').1 hR'
      subst hv
      subst hv'
      simp [EventImpl.Filter, is_void_v]

/-- C19: signature validation is the conjunction of two predicates. `IsValidFunction` holds
exactly when the handler is invocable with the parameters and return compatibility holds,
and return compatibility holds exactly when either the required type and the result of the
handler are both `void`, or the result is assignable to the required type. Since nothing is
assignable to `void&` and `void` is assignable to nothing, a handler with a non-void result
is not compatible with a required `void` result, and a handler with a `void` result is not
compatible with a required non-void type. -/
theorem validation_is_conjunction {Function : Type} (std : StdConcepts Function)
    (F : Function) (R : CppType) (P : List CppType)
    (hlhs : ∀ X, std.assignable_from CppType.void X = false)
    (hrhs : ∀ L, std.assignable_from L CppType.void = false) :
    (IsValidFunction std F R P = true ↔
        FunctionHasValidArguments std F P = true ∧
          FunctionHasValidReturnType std F R P = true) ∧
      (FunctionHasValidArguments std F P = true ↔ std.invocable F P = true) ∧
      (FunctionHasValidReturnType std F R P = true ↔
        (is_void_v R = true ∧ is_void_v (std.invoke_result_t F P) = true) ∨
          std.assignable_from R (std.invoke_result_t F P) = true) ∧
      (is_void_v R = true → is_void_v (std.invoke_result_t F P) = false →
        FunctionHasValidReturnType std F R P = false ∧ IsValidFunction std F R P = false) ∧
      (is_void_v R = false → is_void_v (std.invoke_result_t F P) = true →
        FunctionHasValidReturnType std F R P = false ∧ IsValidFunction std F R P = false) := by
  refine ⟨?_, Iff.rfl, ?_, ?_, ?_⟩
  · simp [IsValidFunction]
  · simp [FunctionHasValidReturnType]
  · intro hR hres
    have hv : R = CppType.void := (is_void_v_eq_true_iff R).1 hR
    subst hv
    simp [IsValidFunction, FunctionHasValidReturnType, hres, hlhs]
  · intro hR hres
    have hv : std.invoke_result_t F P = CppType.void := (is_void_v_eq_true_iff _).1 hres
    simp [IsValidFunction, FunctionHasValidReturnType, hR, hv, hrhs]

/-- C19 on the handlers of the tests: `test3` returns a `geode::ListenerResult` and is not
valid where `void` is required (as `listen<result>` does), although it is invocable with
`int`; `test1` returns `void` and is not valid where `int` is required (as `send<result>`
on `MyEvent2` does). -/
theorem validation_is_conjunction_witness :
    (FunctionHasValidArguments exactConcepts test3 [CppType.int] = true ∧
        IsValidFunction exactConcepts test3 CppType.void [CppType.int] = false) ∧
      IsValidFunction exactConcepts test1 CppType.int [CppType.int] = false ∧
      IsValidFunction exactConcepts test1 CppType.void [CppType.int] = true ∧
      IsValidFunction exactConcepts test2 CppType.int [CppType.int] = true :=
  have hlhs : ∀ X, exactConcepts.assignable_from CppType.void X = false := fun _ => rfl
  have hrhs : ∀ L, exactConcepts.assignable_from L CppType.void = false := fun L => by
    cases L <;> rfl
  ⟨⟨rfl,
      ((validation_is_conjunction exactConcepts test3 CppType.void [CppType.int] hlhs
        hrhs).2.2.2.1 rfl rfl).2⟩,
    ((validation_is_conjunction exactConcepts test1 CppType.int [CppType.int] hlhs
      hrhs).2.2.2.2 rfl rfl).2,
    rfl, rfl⟩

/-! ## Theorems: plain listening, global scope and instance binding -/

/-- C21: plain listening never touches the Out-Slot. On an Identity with a return type, for
every Out-Slot pointer (null or not) and arguments `a`, the callbacks built by
`listenWithID` and `listenWithIDOn`, with fixed or handler-decided disposition, call the
handler with `a` only: what they return and the world they leave are those of the handler,
whatever the pointer. They make no assignment of their own, so the content of the Out-Slot
is unchanged wherever the handler, which is never given the pointer, leaves it. -/
theorem plain_listening_keeps_the_slot {σ Class : Type} (I : EventBuilder)
    (h : is_void_v I.EventReturn = false) (d : ListenerResult) (k : String) (into : Ptr)
    (p : Addr) (a : I.Parameters) (w : I.World σ) (inst : Class)
    (f : I.Parameters → I.World σ → I.World σ)
    (g : I.Parameters → I.World σ → ListenerResult × I.World σ)
    (mf : Class → I.Parameters → I.World σ → I.World σ)
    (mg : Class → I.Parameters → I.World σ → ListenerResult × I.World σ) :
    ((EventImpl.listenWithIDPreset I d k f).callback.invoke into a w = (d, f a w) ∧
        (EventImpl.listenWithID I k g).callback.invoke into a w = g a w ∧
        (EventImpl.listenWithIDOnPreset I d k inst mf).callback.invoke into a w =
          (d, mf inst a w) ∧
        (EventImpl.listenWithIDOn I k inst mg).callback.invoke into a w = mg inst a w) ∧
      (((f a w).load p = w.load p →
          ((EventImpl.listenWithIDPreset I d k f).callback.invoke (some p) a w).2.load p =
            w.load p) ∧
        ((g a w).2.load p = w.load p →
          ((EventImpl.listenWithID I k g).callback.invoke (some p) a w).2.load p =
            w.load p) ∧
        ((mf inst a w).load p = w.load p →
          ((EventImpl.listenWithIDOnPreset I d k inst mf).callback.invoke (some p) a
            w).2.load p = w.load p) ∧
        ((mg inst a w).2.load p = w.load p →
          ((EventImpl.listenWithIDOn I k inst mg).callback.invoke (some p) a w).2.load p =
            w.load p)) ∧
      (((EventImpl.listenWithIDPreset I d k f).callback.invoke into a w).2.stores =
          (f a w).stores ∧
        ((EventImpl.listenWithID I k g).callback.invoke into a w).2.stores =
          (g a w).2.stores ∧
        ((EventImpl.listenWithIDOnPreset I d k inst mf).callback.invoke into a w).2.stores =
          (mf inst a w).stores ∧
        ((EventImpl.listenWithIDOn I k inst mg).callback.invoke into a w).2.stores =
          (mg inst a w).2.stores) := by
  have h1 : ∀ q : Ptr,
      (EventImpl.listenWithIDPreset I d k f).callback.invoke q a w = (d, f a w) := by
    intro q
    simp [EventImpl.listenWithIDPreset, h, Callback.invoke]
  have h2 : ∀ q : Ptr, (EventImpl.listenWithID I k g).callback.invoke q a w = g a w := by
    intro q
    simp [EventImpl.listenWithID, h, Callback.invoke]
  have h3 : ∀ q : Ptr,
      (EventImpl.listenWithIDOnPreset I d k inst mf).callback.invoke q a w =
        (d, mf inst a w) := by
    intro q
    simp [EventImpl.listenWithIDOnPreset, h, Callback.invoke]
  have h4 : ∀ q : Ptr,
      (EventImpl.listenWithIDOn I k inst mg).callback.invoke q a w = mg inst a w := by
    intro q
    simp [EventImpl.listenWithIDOn, h, Callback.invoke]
  refine ⟨⟨h1 into, h2 into, h3 into, h4 into⟩, ⟨?_, ?_, ?_, ?_⟩, ⟨?_, ?_, ?_, ?_⟩⟩
  · intro hf
    rw [h1]
    exact hf
  · intro hg
    rw [h2]
    exact hg
  · intro hf
    rw [h3]
    exact hf
  · intro hg
    rw [h4]
    exact hg
  · rw [h1]
  · rw [h2]
  · rw [h3]
  · rw [h4]

/-- C21 on `MyEvent2` of the tests, with a handler that records its arguments: the Out-Slot
at address `0` holds `7`; the callback of `listenWithID<Propagate>`, invoked with the pointer
to it and `5`, returns `Propagate`, makes the handler observe `5`, and the slot holds `7`. -/
theorem plain_listening_keeps_the_slot_witness :
    ((EventImpl.listenWithIDPreset MyEvent2 ListenerResult.Propagate "my-event-id"
          observe).callback.invoke (some 0) (5 : Int)
          ((World.empty []).alloc (some (7 : Int))).2).2.load 0 = some (7 : Int) ∧
      ((EventImpl.listenWithIDPreset MyEvent2 ListenerResult.Propagate "my-event-id"
          observe).callback.invoke (some 0) (5 : Int)
          ((World.empty []).alloc (some (7 : Int))).2).2.user = [(5 : Int)] ∧
      ((EventImpl.listenWithIDPreset MyEvent2 ListenerResult.Propagate "my-event-id"
          observe).callback.invoke (some 0) (5 : Int)
          ((World.empty []).alloc (some (7 : Int))).2).1 = ListenerResult.Propagate := by
  have t := plain_listening_keeps_the_slot MyEvent2 rfl ListenerResult.Propagate
    "my-event-id" (some 0) 0 (5 : Int) ((World.empty []).alloc (some (7 : Int))).2 ()
    observe
    (fun (x : Int) (w : World Int (List Int)) => (ListenerResult.Propagate, observe x w))
    (fun (_ : Unit) (x : Int) (w : World Int (List Int)) => observe x w)
    (fun (_ : Unit) (x : Int) (w : World Int (List Int)) =>
      (ListenerResult.Propagate, observe x w))
  refine ⟨t.2.1.1 rfl, ?_, ?_⟩
  · rw [t.1.1]
    rfl
  · rw [t.1.1]

/-- C22: global scope adds no dispatch logic. For every shape (`listen`, `rawListen`,
`send`), binding (free function, `On`) and disposition policy, the listener that
`globalXWithID(k, f)` puts on the free store is the listener `XWithID(k, f)` returns, with
the same key `k` and the same callback; the global form has the `requires` clause of the
scoped form, so it accepts exactly the same handlers; the two differ in the returned
handle alone, a pointer nobody owns for the global form. -/
theorem global_is_scoped {σ Class Function : Type} (std : StdConcepts Function)
    (F : Function) (I : EventBuilder) (k : String) (d : ListenerResult) (inst : Class)
    (s : Shape) (b : Binding) (key : KeySource) (p : Policy)
    (f : I.Parameters → I.World σ → I.World σ)
    (g : I.Parameters → I.World σ → ListenerResult × I.World σ)
    (rf : Ptr → I.Parameters → I.World σ → I.World σ)
    (rg : Ptr → I.Parameters → I.World σ → ListenerResult × I.World σ)
    (mf : Class → I.Parameters → I.World σ → I.World σ)
    (mg : Class → I.Parameters → I.World σ → ListenerResult × I.World σ)
    (mrf : Class → Ptr → I.Parameters → I.World σ → I.World σ)
    (mrg : Class → Ptr → I.Parameters → I.World σ → ListenerResult × I.World σ) :
    (((EventImpl.globalListenWithIDPreset I d k f).pointee =
            EventImpl.listenWithIDPreset I d k f ∧
          (EventImpl.globalListenWithIDPreset I d k f).pointee.filter = k) ∧
        ((EventImpl.globalListenWithID I k g).pointee =
            EventImpl.listenWithID I k g ∧
          (EventImpl.globalListenWithID I k g).pointee.filter = k) ∧
        ((EventImpl.globalListenWithIDOnPreset I d k inst mf).pointee =
            EventImpl.listenWithIDOnPreset I d k inst mf ∧
          (EventImpl.globalListenWithIDOnPreset I d k inst mf).pointee.filter = k) ∧
        ((EventImpl.globalListenWithIDOn I k inst mg).pointee =
            EventImpl.listenWithIDOn I k inst mg ∧
          (EventImpl.globalListenWithIDOn I k inst mg).pointee.filter = k) ∧
        ((EventImpl.globalRawListenWithIDPreset I d k rf).pointee =
            EventImpl.rawListenWithIDPreset I d k rf ∧
          (EventImpl.globalRawListenWithIDPreset I d k rf).pointee.filter = k) ∧
        ((EventImpl.globalRawListenWithID I k rg).pointee =
            EventImpl.rawListenWithID I k rg ∧
          (EventImpl.globalRawListenWithID I k rg).pointee.filter = k) ∧
        ((EventImpl.globalRawListenWithIDOnPreset I d k inst mrf).pointee =
            EventImpl.rawListenWithIDOnPreset I d k inst mrf ∧
          (EventImpl.globalRawListenWithIDOnPreset I d k inst mrf).pointee.filter = k) ∧
        ((EventImpl.globalRawListenWithIDOn I k inst mrg).pointee =
            EventImpl.rawListenWithIDOn I k inst mrg ∧
          (EventImpl.globalRawListenWithIDOn I k inst mrg).pointee.filter = k)) ∧
      (∀ (h : is_void_v I.EventReturn = false)
        (sf : I.Parameters → I.World σ → I.Value × I.World σ)
        (sg : I.Parameters → I.World σ → (ListenerResult × I.Value) × I.World σ)
        (msf : Class → I.Parameters → I.World σ → I.Value × I.World σ)
        (msg : Class → I.Parameters → I.World σ → (ListenerResult × I.Value) × I.World σ),
        ((EventImpl.globalSendWithIDPreset I h d k sf).pointee =
            EventImpl.sendWithIDPreset I h d k sf ∧
          (EventImpl.globalSendWithIDPreset I h d k sf).pointee.filter = k) ∧
        ((EventImpl.globalSendWithID I h k sg).pointee =
            EventImpl.sendWithID I h k sg ∧
          (EventImpl.globalSendWithID I h k sg).pointee.filter = k) ∧
        ((EventImpl.globalSendWithIDOnPreset I h d k inst msf).pointee =
            EventImpl.sendWithIDOnPreset I h d k inst msf ∧
          (EventImpl.globalSendWithIDOnPreset I h d k inst msf).pointee.filter = k) ∧
        ((EventImpl.globalSendWithIDOn I h k inst msg).pointee =
            EventImpl.sendWithIDOn I h k inst msg ∧
          (EventImpl.globalSendWithIDOn I h k inst msg).pointee.filter = k)) ∧
      listenerRequires std I
          { shape := s, binding := b, scope := Scope.global, key := key, policy := p } F =
        listenerRequires std I
          { shape := s, binding := b, scope := Scope.scoped, key := key, policy := p } F := by
  refine ⟨⟨?_, ?_, ?_, ?_, ?_, ?_, ?_, ?_⟩, ?_, rfl⟩
  · refine ⟨rfl, ?_⟩
    simp only [EventImpl.globalListenWithIDPreset]
    unfold EventImpl.listenWithIDPreset
    split <;> rfl
  · refine ⟨rfl, ?_⟩
    simp only [EventImpl.globalListenWithID]
    unfold EventImpl.listenWithID
    split <;> rfl
  · refine ⟨rfl, ?_⟩
    simp only [EventImpl.globalListenWithIDOnPreset]
    unfold EventImpl.listenWithIDOnPreset
    split <;> rfl
  · refine ⟨rfl, ?_⟩
    simp only [EventImpl.globalListenWithIDOn]
    unfold EventImpl.listenWithIDOn
    split <;> rfl
  · refine ⟨rfl, ?_⟩
    simp only [EventImpl.globalRawListenWithIDPreset]
    unfold EventImpl.rawListenWithIDPreset
    split <;> rfl
  · refine ⟨rfl, ?_⟩
    simp only [EventImpl.globalRawListenWithID]
    unfold EventImpl.rawListenWithID
    split <;> rfl
  · refine ⟨rfl, ?_⟩
    simp only [EventImpl.globalRawListenWithIDOnPreset]
    unfold EventImpl.rawListenWithIDOnPreset
    split <;> rfl
  · refine ⟨rfl, ?_⟩
    simp only [EventImpl.globalRawListenWithIDOn]
    unfold EventImpl.rawListenWithIDOn
    split <;> rfl
  · intro h sf sg msf msg
    exact ⟨⟨rfl, rfl⟩, ⟨rfl, rfl⟩, ⟨rfl, rfl⟩, ⟨rfl, rfl⟩⟩

/-- C23: instance-bound listeners equal free-function listeners over the bound closure. For
every receiver `inst`, method `m`, key `k`, Out-Slot pointer and arguments `a`, the
listener built by `listenWithIDOn`, `rawListenWithIDOn` and `sendWithIDOn` for `inst` and
`m` is the listener built by `listenWithID`, `rawListenWithID` and `sendWithID` for the
closure `g(args...) = inst->m(args...)`, so its callback returns the same disposition and
leaves the same world, Out-Slot included; for both fixed and handler-decided
disposition. -/
theorem on_is_bound_closure {σ Class : Type} (I : EventBuilder) (k : String)
    (d : ListenerResult) (inst : Class) (into : Ptr) (a : I.Parameters) (w : I.World σ)
    (mf : Class → I.Parameters → I.World σ → I.World σ)
    (mg : Class → I.Parameters → I.World σ → ListenerResult × I.World σ)
    (mrf : Class → Ptr → I.Parameters → I.World σ → I.World σ)
    (mrg : Class → Ptr → I.Parameters → I.World σ → ListenerResult × I.World σ) :
    ((EventImpl.listenWithIDOnPreset I d k inst mf =
            EventImpl.listenWithIDPreset I d k
              (fun args w => mf inst args w) ∧
          (EventImpl.listenWithIDOnPreset I d k inst mf).callback.invoke into a w =
            (EventImpl.listenWithIDPreset I d k
              (fun args w => mf inst args w)).callback.invoke into a w) ∧
        (EventImpl.listenWithIDOn I k inst mg =
            EventImpl.listenWithID I k
              (fun args w => mg inst args w) ∧
          (EventImpl.listenWithIDOn I k inst mg).callback.invoke into a w =
            (EventImpl.listenWithID I k
              (fun args w => mg inst args w)).callback.invoke into a w) ∧
        (EventImpl.rawListenWithIDOnPreset I d k inst mrf =
            EventImpl.rawListenWithIDPreset I d k
              (fun into args w => mrf inst into args w) ∧
          (EventImpl.rawListenWithIDOnPreset I d k inst mrf).callback.invoke into a w =
            (EventImpl.rawListenWithIDPreset I d k
              (fun into args w => mrf inst into args w)).callback.invoke into a w) ∧
        (EventImpl.rawListenWithIDOn I k inst mrg =
            EventImpl.rawListenWithID I k
              (fun into args w => mrg inst into args w) ∧
          (EventImpl.rawListenWithIDOn I k inst mrg).callback.invoke into a w =
            (EventImpl.rawListenWithID I k
              (fun into args w => mrg inst into args w)).callback.invoke into a w)) ∧
      ∀ (h : is_void_v I.EventReturn = false)
        (msf : Class → I.Parameters → I.World σ → I.Value × I.World σ)
        (msg : Class → I.Parameters → I.World σ → (ListenerResult × I.Value) × I.World σ),
        (EventImpl.sendWithIDOnPreset I h d k inst msf =
            EventImpl.sendWithIDPreset I h d k
              (fun args w => msf inst args w) ∧
          (EventImpl.sendWithIDOnPreset I h d k inst msf).callback.invoke into a w =
            (EventImpl.sendWithIDPreset I h d k
              (fun args w => msf inst args w)).callback.invoke into a w) ∧
        (EventImpl.sendWithIDOn I h k inst msg =
            EventImpl.sendWithID I h k
              (fun args w => msg inst args w) ∧
          (EventImpl.sendWithIDOn I h k inst msg).callback.invoke into a w =
            (EventImpl.sendWithID I h k
              (fun args w => msg inst args w)).callback.invoke into a w) := by
  have e1 : EventImpl.listenWithIDOnPreset I d k inst mf =
      EventImpl.listenWithIDPreset I d k (fun args w => mf inst args w) := by
    unfold EventImpl.listenWithIDOnPreset EventImpl.listenWithIDPreset
    split <;> rfl
  have e2 : EventImpl.listenWithIDOn I k inst mg =
      EventImpl.listenWithID I k (fun args w => mg inst args w) := by
    unfold EventImpl.listenWithIDOn EventImpl.listenWithID
    split <;> rfl
  have e3 : EventImpl.rawListenWithIDOnPreset I d k inst mrf =
      EventImpl.rawListenWithIDPreset I d k (fun into args w => mrf inst into args w) := by
    unfold EventImpl.rawListenWithIDOnPreset EventImpl.rawListenWithIDPreset
    split <;> rfl
  have e4 : EventImpl.rawListenWithIDOn I k inst mrg =
      EventImpl.rawListenWithID I k (fun into args w => mrg inst into args w) := by
    unfold EventImpl.rawListenWithIDOn EventImpl.rawListenWithID
    split <;> rfl
  refine ⟨⟨⟨e1, by rw [e1]⟩, ⟨e2, by rw [e2]⟩, ⟨e3, by rw [e3]⟩, ⟨e4, by rw [e4]⟩⟩, ?_⟩
  intro h msf msg
  exact ⟨⟨rfl, rfl⟩, ⟨rfl, rfl⟩⟩

end easy_event
